import Mathlib

/-!
Verification development for the IPA-Navigator speech-synthesis core
(`ipa-navigator-kokoro` plus the thin HTTP handler in `ipa-navigator-axum`).

Each Rust source function that the checked properties mention is embedded
shallowly below, keeping the source's names where Lean allows it:

* `vocab.rs`     — `VOCABULARY` / `REVERSE_VOCABULARY` (symbol table with
  last-write-wins `HashMap` collection semantics);
* `tokenize.rs`  — `tokenize`, `tokens_to_phonemes`;
* `normalize.rs` — `normalize_text` and its six ordered passes;
* `voices.rs`    — the twelve-voice catalog, `file_name`, `language`;
* `model.rs`     — `load_voice_embedding` (byte-level decode),
  the style-vector computation inside `infer`, `get_voice_embedding`;
* `tts.rs`       — `generate_cache_key`, `process_tts`, `audio_to_wav`,
  the LRU+TTL cache discipline;
* `handlers/tts.rs` — `parse_voice` and the speed check of
  `synthesize_speech`.

Modelling conventions: `f32` values that only flow through arithmetic are
represented as `ℚ` (the checked properties hold exactly, without rounding);
`f32` values that are only moved byte-for-byte are represented by their
32-bit little-endian pattern as a `Nat`; `i64`/`usize` are `Int`/`Nat`;
`Instant` is an abstract `Nat` time; the file system and the two opaque
collaborators (phonemizer, neural session) are explicit parameters.
-/

set_option maxRecDepth 100000

namespace IpaNavigator

/-! ## Vocabulary codec (`vocab.rs`)

`VOCABULARY` is built by enumerating the concatenation
`[pad, punctuation, letters, letters_ipa].concat()` and collecting the
`(char, index)` pairs into a `HashMap`; a later pair for the same character
overwrites an earlier one.  The IPA segment of the source string ends with
the characters `↓↑→↗↘`, U+0027, U+0329, U+0027, U+1D7B — the ASCII
apostrophe U+0027 occurs twice (written here via `Char.ofNat 39`, with the
combining character U+0329 between them also written numerically). -/

def padSymbol : List Char := "$".toList

def punctuationSymbols : List Char := ";:,.!?¡¿—…\"«»“” ".toList

def letterSymbols : List Char :=
  "ABCDEFGHIJKLMNOPQRSTUVWXYZabcdefghijklmnopqrstuvwxyz".toList

def ipaSymbols : List Char :=
  "ɑɐɒæɓʙβɔɕçɗɖðʤəɘɚɛɜɝɞɟʄɡɠɢʛɦɧħɥʜɨɪʝɭɬɫɮʟɱɯɰŋɳɲɴøɵɸθœɶʘɹɺɾɻʀʁɽʂʃʈʧʉʊʋⱱʌɣɤʍχʎʏʑʐʒʔʡʕʢǀǁǂǃˈˌːˑʼʴʰʱʲʷˠˤ˞↓↑→↗↘".toList
    ++ [Char.ofNat 39, Char.ofNat 0x329, Char.ofNat 39, 'ᵻ']

/-- The full symbol concatenation, in source order. -/
def symbols : List Char :=
  padSymbol ++ punctuationSymbols ++ letterSymbols ++ ipaSymbols

example : symbols.length = 178 := by decide

/-- `VOCABULARY.get(&c)`: the index assigned to `c`, i.e. the index of the
*last* occurrence of `c` in the concatenation (`HashMap` collection of
`(c, idx)` pairs keeps the last write). -/
def vocabGet (c : Char) : Option Nat :=
  ((symbols.enum.filter (fun p => p.2 = c)).getLast?).map (fun p => p.1)

/-- `REVERSE_VOCABULARY.get(&i)`: built by inverting the pairs of the final
`VOCABULARY` map, so it holds `c` at key `i` exactly when `VOCABULARY`
maps `c` to `i` (the final map is injective, so the entry is unique; we
return the first — and only — such character). -/
def reverseGet (i : Nat) : Option Char :=
  symbols.find? (fun c => vocabGet c == some i)

/- The duplicated apostrophe keeps its *later* index 176; index 174 is
absent from both maps. -/
example : vocabGet (Char.ofNat 39) = some 176 := by decide
example : reverseGet 174 = none := by decide
example : vocabGet 'ᵻ' = some 177 := by decide

/-- `VOCABULARY.len()`: the number of distinct characters in the
concatenation (178 positions, one duplicated character). -/
def vocabularyLen : Nat := symbols.dedup.length

example : vocabularyLen = 177 := by decide

/-- `tokenize` (`tokenize.rs`): each character present in the table maps to
its ID (`usize` cast to `i64`, always small here) in original order;
characters absent from the table are skipped. -/
def tokenize (phonemes : List Char) : List Int :=
  phonemes.filterMap (fun c => (vocabGet c).map (fun id => (id : Int)))

/-- The Rust `t as usize` cast of an `i64` wraps modulo `2^64`. -/
def i64AsUsize (t : Int) : Nat := (t % (2 ^ 64 : Int)).toNat

/-- `tokens_to_phonemes` (`tokenize.rs`): reverse lookup of each token,
skipping IDs absent from the reverse table. -/
def tokens_to_phonemes (tokens : List Int) : List Char :=
  tokens.filterMap (fun t => reverseGet (i64AsUsize t))

example : tokenize "heɪ".toList = [50, 47, 102] := by decide
example : tokens_to_phonemes [24, 47, 54, 54, 57, 5] = "Hello!".toList := by decide

/-! ## Text normalizer (`normalize.rs`)

`normalize_text` applies, in order: (a) `\s+` → one space, (b) folding of
the four typographic quotes, (c) nine `\bABBR\.` → word replacements,
(d) `(\d+)-(\d+)` → `$1 to $2`, (e) `(\d),(\d)` → `$1$2`, (f) `trim`.
The `regex` crate's `replace_all` scans for leftmost, non-overlapping
matches and resumes immediately after each match; the word-boundary `\b`
before the first (word) character of an abbreviation pattern holds exactly
when the preceding character is absent or not a word character.  The
crate's character classes are Unicode by default: `\d` is `\p{Nd}` and the
word class behind `\b` is `Alphabetic ∪ Mark ∪ Nd ∪ Pc ∪ Join_Control`;
both are embedded below as sorted codepoint-range tables.  Each pass is
implemented with a fuel argument equal to the input length; every step
consumes at least one input character, so the fuel never runs out. -/

/-- Rust `char::is_whitespace` / regex `\s`: the Unicode `White_Space` set. -/
def isWs (c : Char) : Bool :=
  c.toNat ∈ [0x9, 0xA, 0xB, 0xC, 0xD, 0x20, 0x85, 0xA0, 0x1680,
    0x2000, 0x2001, 0x2002, 0x2003, 0x2004, 0x2005, 0x2006, 0x2007,
    0x2008, 0x2009, 0x200A, 0x2028, 0x2029, 0x202F, 0x205F, 0x3000]

/-- Pass (a): `whitespace_re.replace_all(text, " ")` — each maximal run of
whitespace becomes a single ASCII space. -/
def collapseWsAux : Nat → List Char → List Char
  | 0, l => l
  | _ + 1, [] => []
  | fuel + 1, c :: rest =>
    if isWs c then ' ' :: collapseWsAux fuel (rest.dropWhile isWs)
    else c :: collapseWsAux fuel rest

def collapseWs (l : List Char) : List Char := collapseWsAux l.length l

/-- Pass (b): the four `String::replace` calls folding typographic quotes;
each is a one-character-for-one-character substitution, so the sequential
composition is this single map. -/
def foldQuote (c : Char) : Char :=
  if c = Char.ofNat 0x2018 ∨ c = Char.ofNat 0x2019 then Char.ofNat 39
  else if c = Char.ofNat 0x201C ∨ c = Char.ofNat 0x201D then Char.ofNat 34
  else c

/-- Membership of a codepoint in a sorted list of inclusive ranges (the
list is ordered by lower bound, so the scan can stop early). -/
def inRanges : List (Nat × Nat) → Nat → Bool
  | [], _ => false
  | (lo, hi) :: rest, n =>
    if n < lo then false else if n ≤ hi then true else inRanges rest n

/-- The codepoint ranges of the Unicode general category `Nd` (decimal
digit), Unicode character database version 14.0.0 (the UCD available to
this development; the `regex` crate ships a contemporary UCD and the two
agree on every script it encodes). -/
def ndRanges : List (Nat × Nat) :=
  [(0x30, 0x39), (0x660, 0x669), (0x6F0, 0x6F9), (0x7C0, 0x7C9),
   (0x966, 0x96F), (0x9E6, 0x9EF), (0xA66, 0xA6F), (0xAE6, 0xAEF),
   (0xB66, 0xB6F), (0xBE6, 0xBEF), (0xC66, 0xC6F), (0xCE6, 0xCEF),
   (0xD66, 0xD6F), (0xDE6, 0xDEF), (0xE50, 0xE59), (0xED0, 0xED9),
   (0xF20, 0xF29), (0x1040, 0x1049), (0x1090, 0x1099), (0x17E0, 0x17E9),
   (0x1810, 0x1819), (0x1946, 0x194F), (0x19D0, 0x19D9), (0x1A80, 0x1A89),
   (0x1A90, 0x1A99), (0x1B50, 0x1B59), (0x1BB0, 0x1BB9), (0x1C40, 0x1C49),
   (0x1C50, 0x1C59), (0xA620, 0xA629), (0xA8D0, 0xA8D9), (0xA900, 0xA909),
   (0xA9D0, 0xA9D9), (0xA9F0, 0xA9F9), (0xAA50, 0xAA59), (0xABF0, 0xABF9),
   (0xFF10, 0xFF19), (0x104A0, 0x104A9), (0x10D30, 0x10D39), (0x11066, 0x1106F),
   (0x110F0, 0x110F9), (0x11136, 0x1113F), (0x111D0, 0x111D9), (0x112F0, 0x112F9),
   (0x11450, 0x11459), (0x114D0, 0x114D9), (0x11650, 0x11659), (0x116C0, 0x116C9),
   (0x11730, 0x11739), (0x118E0, 0x118E9), (0x11950, 0x11959), (0x11C50, 0x11C59),
   (0x11D50, 0x11D59), (0x11DA0, 0x11DA9), (0x16A60, 0x16A69), (0x16AC0, 0x16AC9),
   (0x16B50, 0x16B59), (0x1D7CE, 0x1D7FF), (0x1E140, 0x1E149), (0x1E2F0, 0x1E2F9),
   (0x1E950, 0x1E959), (0x1FBF0, 0x1FBF9)]

/-- Regex `\d`: the Unicode decimal-digit class `\p{Nd}` (the `regex`
crate's `\d` is Unicode by default). -/
def isRegexDigit (c : Char) : Bool := inRanges ndRanges c.toNat

/-- The codepoint ranges of the regex word-character class used by `\b`:
`Alphabetic ∪ Mark ∪ Nd ∪ Connector_Punctuation ∪ Join_Control`, assembled
from the UCD 14.0.0 general categories (`L*`, `Nl`, `Mn`, `Mc`, `Me`,
`Nd`, `Pc`), the circled letters U+24B6..U+24E9 (the `Other_Alphabetic`
members outside those categories) and the join controls U+200C..U+200D. -/
def wordRanges : List (Nat × Nat) :=
  [(0x30, 0x39), (0x41, 0x5A), (0x5F, 0x5F), (0x61, 0x7A),
   (0xAA, 0xAA), (0xB5, 0xB5), (0xBA, 0xBA), (0xC0, 0xD6),
   (0xD8, 0xF6), (0xF8, 0x2C1), (0x2C6, 0x2D1), (0x2E0, 0x2E4),
   (0x2EC, 0x2EC), (0x2EE, 0x2EE), (0x300, 0x374), (0x376, 0x377),
   (0x37A, 0x37D), (0x37F, 0x37F), (0x386, 0x386), (0x388, 0x38A),
   (0x38C, 0x38C), (0x38E, 0x3A1), (0x3A3, 0x3F5), (0x3F7, 0x481),
   (0x483, 0x52F), (0x531, 0x556), (0x559, 0x559), (0x560, 0x588),
   (0x591, 0x5BD), (0x5BF, 0x5BF), (0x5C1, 0x5C2), (0x5C4, 0x5C5),
   (0x5C7, 0x5C7), (0x5D0, 0x5EA), (0x5EF, 0x5F2), (0x610, 0x61A),
   (0x620, 0x669), (0x66E, 0x6D3), (0x6D5, 0x6DC), (0x6DF, 0x6E8),
   (0x6EA, 0x6FC), (0x6FF, 0x6FF), (0x710, 0x74A), (0x74D, 0x7B1),
   (0x7C0, 0x7F5), (0x7FA, 0x7FA), (0x7FD, 0x7FD), (0x800, 0x82D),
   (0x840, 0x85B), (0x860, 0x86A), (0x870, 0x887), (0x889, 0x88E),
   (0x898, 0x8E1), (0x8E3, 0x963), (0x966, 0x96F), (0x971, 0x983),
   (0x985, 0x98C), (0x98F, 0x990), (0x993, 0x9A8), (0x9AA, 0x9B0),
   (0x9B2, 0x9B2), (0x9B6, 0x9B9), (0x9BC, 0x9C4), (0x9C7, 0x9C8),
   (0x9CB, 0x9CE), (0x9D7, 0x9D7), (0x9DC, 0x9DD), (0x9DF, 0x9E3),
   (0x9E6, 0x9F1), (0x9FC, 0x9FC), (0x9FE, 0x9FE), (0xA01, 0xA03),
   (0xA05, 0xA0A), (0xA0F, 0xA10), (0xA13, 0xA28), (0xA2A, 0xA30),
   (0xA32, 0xA33), (0xA35, 0xA36), (0xA38, 0xA39), (0xA3C, 0xA3C),
   (0xA3E, 0xA42), (0xA47, 0xA48), (0xA4B, 0xA4D), (0xA51, 0xA51),
   (0xA59, 0xA5C), (0xA5E, 0xA5E), (0xA66, 0xA75), (0xA81, 0xA83),
   (0xA85, 0xA8D), (0xA8F, 0xA91), (0xA93, 0xAA8), (0xAAA, 0xAB0),
   (0xAB2, 0xAB3), (0xAB5, 0xAB9), (0xABC, 0xAC5), (0xAC7, 0xAC9),
   (0xACB, 0xACD), (0xAD0, 0xAD0), (0xAE0, 0xAE3), (0xAE6, 0xAEF),
   (0xAF9, 0xAFF), (0xB01, 0xB03), (0xB05, 0xB0C), (0xB0F, 0xB10),
   (0xB13, 0xB28), (0xB2A, 0xB30), (0xB32, 0xB33), (0xB35, 0xB39),
   (0xB3C, 0xB44), (0xB47, 0xB48), (0xB4B, 0xB4D), (0xB55, 0xB57),
   (0xB5C, 0xB5D), (0xB5F, 0xB63), (0xB66, 0xB6F), (0xB71, 0xB71),
   (0xB82, 0xB83), (0xB85, 0xB8A), (0xB8E, 0xB90), (0xB92, 0xB95),
   (0xB99, 0xB9A), (0xB9C, 0xB9C), (0xB9E, 0xB9F), (0xBA3, 0xBA4),
   (0xBA8, 0xBAA), (0xBAE, 0xBB9), (0xBBE, 0xBC2), (0xBC6, 0xBC8),
   (0xBCA, 0xBCD), (0xBD0, 0xBD0), (0xBD7, 0xBD7), (0xBE6, 0xBEF),
   (0xC00, 0xC0C), (0xC0E, 0xC10), (0xC12, 0xC28), (0xC2A, 0xC39),
   (0xC3C, 0xC44), (0xC46, 0xC48), (0xC4A, 0xC4D), (0xC55, 0xC56),
   (0xC58, 0xC5A), (0xC5D, 0xC5D), (0xC60, 0xC63), (0xC66, 0xC6F),
   (0xC80, 0xC83), (0xC85, 0xC8C), (0xC8E, 0xC90), (0xC92, 0xCA8),
   (0xCAA, 0xCB3), (0xCB5, 0xCB9), (0xCBC, 0xCC4), (0xCC6, 0xCC8),
   (0xCCA, 0xCCD), (0xCD5, 0xCD6), (0xCDD, 0xCDE), (0xCE0, 0xCE3),
   (0xCE6, 0xCEF), (0xCF1, 0xCF2), (0xD00, 0xD0C), (0xD0E, 0xD10),
   (0xD12, 0xD44), (0xD46, 0xD48), (0xD4A, 0xD4E), (0xD54, 0xD57),
   (0xD5F, 0xD63), (0xD66, 0xD6F), (0xD7A, 0xD7F), (0xD81, 0xD83),
   (0xD85, 0xD96), (0xD9A, 0xDB1), (0xDB3, 0xDBB), (0xDBD, 0xDBD),
   (0xDC0, 0xDC6), (0xDCA, 0xDCA), (0xDCF, 0xDD4), (0xDD6, 0xDD6),
   (0xDD8, 0xDDF), (0xDE6, 0xDEF), (0xDF2, 0xDF3), (0xE01, 0xE3A),
   (0xE40, 0xE4E), (0xE50, 0xE59), (0xE81, 0xE82), (0xE84, 0xE84),
   (0xE86, 0xE8A), (0xE8C, 0xEA3), (0xEA5, 0xEA5), (0xEA7, 0xEBD),
   (0xEC0, 0xEC4), (0xEC6, 0xEC6), (0xEC8, 0xECD), (0xED0, 0xED9),
   (0xEDC, 0xEDF), (0xF00, 0xF00), (0xF18, 0xF19), (0xF20, 0xF29),
   (0xF35, 0xF35), (0xF37, 0xF37), (0xF39, 0xF39), (0xF3E, 0xF47),
   (0xF49, 0xF6C), (0xF71, 0xF84), (0xF86, 0xF97), (0xF99, 0xFBC),
   (0xFC6, 0xFC6), (0x1000, 0x1049), (0x1050, 0x109D), (0x10A0, 0x10C5),
   (0x10C7, 0x10C7), (0x10CD, 0x10CD), (0x10D0, 0x10FA), (0x10FC, 0x1248),
   (0x124A, 0x124D), (0x1250, 0x1256), (0x1258, 0x1258), (0x125A, 0x125D),
   (0x1260, 0x1288), (0x128A, 0x128D), (0x1290, 0x12B0), (0x12B2, 0x12B5),
   (0x12B8, 0x12BE), (0x12C0, 0x12C0), (0x12C2, 0x12C5), (0x12C8, 0x12D6),
   (0x12D8, 0x1310), (0x1312, 0x1315), (0x1318, 0x135A), (0x135D, 0x135F),
   (0x1380, 0x138F), (0x13A0, 0x13F5), (0x13F8, 0x13FD), (0x1401, 0x166C),
   (0x166F, 0x167F), (0x1681, 0x169A), (0x16A0, 0x16EA), (0x16EE, 0x16F8),
   (0x1700, 0x1715), (0x171F, 0x1734), (0x1740, 0x1753), (0x1760, 0x176C),
   (0x176E, 0x1770), (0x1772, 0x1773), (0x1780, 0x17D3), (0x17D7, 0x17D7),
   (0x17DC, 0x17DD), (0x17E0, 0x17E9), (0x180B, 0x180D), (0x180F, 0x1819),
   (0x1820, 0x1878), (0x1880, 0x18AA), (0x18B0, 0x18F5), (0x1900, 0x191E),
   (0x1920, 0x192B), (0x1930, 0x193B), (0x1946, 0x196D), (0x1970, 0x1974),
   (0x1980, 0x19AB), (0x19B0, 0x19C9), (0x19D0, 0x19D9), (0x1A00, 0x1A1B),
   (0x1A20, 0x1A5E), (0x1A60, 0x1A7C), (0x1A7F, 0x1A89), (0x1A90, 0x1A99),
   (0x1AA7, 0x1AA7), (0x1AB0, 0x1ACE), (0x1B00, 0x1B4C), (0x1B50, 0x1B59),
   (0x1B6B, 0x1B73), (0x1B80, 0x1BF3), (0x1C00, 0x1C37), (0x1C40, 0x1C49),
   (0x1C4D, 0x1C7D), (0x1C80, 0x1C88), (0x1C90, 0x1CBA), (0x1CBD, 0x1CBF),
   (0x1CD0, 0x1CD2), (0x1CD4, 0x1CFA), (0x1D00, 0x1F15), (0x1F18, 0x1F1D),
   (0x1F20, 0x1F45), (0x1F48, 0x1F4D), (0x1F50, 0x1F57), (0x1F59, 0x1F59),
   (0x1F5B, 0x1F5B), (0x1F5D, 0x1F5D), (0x1F5F, 0x1F7D), (0x1F80, 0x1FB4),
   (0x1FB6, 0x1FBC), (0x1FBE, 0x1FBE), (0x1FC2, 0x1FC4), (0x1FC6, 0x1FCC),
   (0x1FD0, 0x1FD3), (0x1FD6, 0x1FDB), (0x1FE0, 0x1FEC), (0x1FF2, 0x1FF4),
   (0x1FF6, 0x1FFC), (0x200C, 0x200D), (0x203F, 0x2040), (0x2054, 0x2054),
   (0x2071, 0x2071), (0x207F, 0x207F), (0x2090, 0x209C), (0x20D0, 0x20F0),
   (0x2102, 0x2102), (0x2107, 0x2107), (0x210A, 0x2113), (0x2115, 0x2115),
   (0x2119, 0x211D), (0x2124, 0x2124), (0x2126, 0x2126), (0x2128, 0x2128),
   (0x212A, 0x212D), (0x212F, 0x2139), (0x213C, 0x213F), (0x2145, 0x2149),
   (0x214E, 0x214E), (0x2160, 0x2188), (0x24B6, 0x24E9), (0x2C00, 0x2CE4),
   (0x2CEB, 0x2CF3), (0x2D00, 0x2D25), (0x2D27, 0x2D27), (0x2D2D, 0x2D2D),
   (0x2D30, 0x2D67), (0x2D6F, 0x2D6F), (0x2D7F, 0x2D96), (0x2DA0, 0x2DA6),
   (0x2DA8, 0x2DAE), (0x2DB0, 0x2DB6), (0x2DB8, 0x2DBE), (0x2DC0, 0x2DC6),
   (0x2DC8, 0x2DCE), (0x2DD0, 0x2DD6), (0x2DD8, 0x2DDE), (0x2DE0, 0x2DFF),
   (0x2E2F, 0x2E2F), (0x3005, 0x3007), (0x3021, 0x302F), (0x3031, 0x3035),
   (0x3038, 0x303C), (0x3041, 0x3096), (0x3099, 0x309A), (0x309D, 0x309F),
   (0x30A1, 0x30FA), (0x30FC, 0x30FF), (0x3105, 0x312F), (0x3131, 0x318E),
   (0x31A0, 0x31BF), (0x31F0, 0x31FF), (0x3400, 0x4DBF), (0x4E00, 0xA48C),
   (0xA4D0, 0xA4FD), (0xA500, 0xA60C), (0xA610, 0xA62B), (0xA640, 0xA672),
   (0xA674, 0xA67D), (0xA67F, 0xA6F1), (0xA717, 0xA71F), (0xA722, 0xA788),
   (0xA78B, 0xA7CA), (0xA7D0, 0xA7D1), (0xA7D3, 0xA7D3), (0xA7D5, 0xA7D9),
   (0xA7F2, 0xA827), (0xA82C, 0xA82C), (0xA840, 0xA873), (0xA880, 0xA8C5),
   (0xA8D0, 0xA8D9), (0xA8E0, 0xA8F7), (0xA8FB, 0xA8FB), (0xA8FD, 0xA92D),
   (0xA930, 0xA953), (0xA960, 0xA97C), (0xA980, 0xA9C0), (0xA9CF, 0xA9D9),
   (0xA9E0, 0xA9FE), (0xAA00, 0xAA36), (0xAA40, 0xAA4D), (0xAA50, 0xAA59),
   (0xAA60, 0xAA76), (0xAA7A, 0xAAC2), (0xAADB, 0xAADD), (0xAAE0, 0xAAEF),
   (0xAAF2, 0xAAF6), (0xAB01, 0xAB06), (0xAB09, 0xAB0E), (0xAB11, 0xAB16),
   (0xAB20, 0xAB26), (0xAB28, 0xAB2E), (0xAB30, 0xAB5A), (0xAB5C, 0xAB69),
   (0xAB70, 0xABEA), (0xABEC, 0xABED), (0xABF0, 0xABF9), (0xAC00, 0xD7A3),
   (0xD7B0, 0xD7C6), (0xD7CB, 0xD7FB), (0xF900, 0xFA6D), (0xFA70, 0xFAD9),
   (0xFB00, 0xFB06), (0xFB13, 0xFB17), (0xFB1D, 0xFB28), (0xFB2A, 0xFB36),
   (0xFB38, 0xFB3C), (0xFB3E, 0xFB3E), (0xFB40, 0xFB41), (0xFB43, 0xFB44),
   (0xFB46, 0xFBB1), (0xFBD3, 0xFD3D), (0xFD50, 0xFD8F), (0xFD92, 0xFDC7),
   (0xFDF0, 0xFDFB), (0xFE00, 0xFE0F), (0xFE20, 0xFE2F), (0xFE33, 0xFE34),
   (0xFE4D, 0xFE4F), (0xFE70, 0xFE74), (0xFE76, 0xFEFC), (0xFF10, 0xFF19),
   (0xFF21, 0xFF3A), (0xFF3F, 0xFF3F), (0xFF41, 0xFF5A), (0xFF66, 0xFFBE),
   (0xFFC2, 0xFFC7), (0xFFCA, 0xFFCF), (0xFFD2, 0xFFD7), (0xFFDA, 0xFFDC),
   (0x10000, 0x1000B), (0x1000D, 0x10026), (0x10028, 0x1003A), (0x1003C, 0x1003D),
   (0x1003F, 0x1004D), (0x10050, 0x1005D), (0x10080, 0x100FA), (0x10140, 0x10174),
   (0x101FD, 0x101FD), (0x10280, 0x1029C), (0x102A0, 0x102D0), (0x102E0, 0x102E0),
   (0x10300, 0x1031F), (0x1032D, 0x1034A), (0x10350, 0x1037A), (0x10380, 0x1039D),
   (0x103A0, 0x103C3), (0x103C8, 0x103CF), (0x103D1, 0x103D5), (0x10400, 0x1049D),
   (0x104A0, 0x104A9), (0x104B0, 0x104D3), (0x104D8, 0x104FB), (0x10500, 0x10527),
   (0x10530, 0x10563), (0x10570, 0x1057A), (0x1057C, 0x1058A), (0x1058C, 0x10592),
   (0x10594, 0x10595), (0x10597, 0x105A1), (0x105A3, 0x105B1), (0x105B3, 0x105B9),
   (0x105BB, 0x105BC), (0x10600, 0x10736), (0x10740, 0x10755), (0x10760, 0x10767),
   (0x10780, 0x10785), (0x10787, 0x107B0), (0x107B2, 0x107BA), (0x10800, 0x10805),
   (0x10808, 0x10808), (0x1080A, 0x10835), (0x10837, 0x10838), (0x1083C, 0x1083C),
   (0x1083F, 0x10855), (0x10860, 0x10876), (0x10880, 0x1089E), (0x108E0, 0x108F2),
   (0x108F4, 0x108F5), (0x10900, 0x10915), (0x10920, 0x10939), (0x10980, 0x109B7),
   (0x109BE, 0x109BF), (0x10A00, 0x10A03), (0x10A05, 0x10A06), (0x10A0C, 0x10A13),
   (0x10A15, 0x10A17), (0x10A19, 0x10A35), (0x10A38, 0x10A3A), (0x10A3F, 0x10A3F),
   (0x10A60, 0x10A7C), (0x10A80, 0x10A9C), (0x10AC0, 0x10AC7), (0x10AC9, 0x10AE6),
   (0x10B00, 0x10B35), (0x10B40, 0x10B55), (0x10B60, 0x10B72), (0x10B80, 0x10B91),
   (0x10C00, 0x10C48), (0x10C80, 0x10CB2), (0x10CC0, 0x10CF2), (0x10D00, 0x10D27),
   (0x10D30, 0x10D39), (0x10E80, 0x10EA9), (0x10EAB, 0x10EAC), (0x10EB0, 0x10EB1),
   (0x10F00, 0x10F1C), (0x10F27, 0x10F27), (0x10F30, 0x10F50), (0x10F70, 0x10F85),
   (0x10FB0, 0x10FC4), (0x10FE0, 0x10FF6), (0x11000, 0x11046), (0x11066, 0x11075),
   (0x1107F, 0x110BA), (0x110C2, 0x110C2), (0x110D0, 0x110E8), (0x110F0, 0x110F9),
   (0x11100, 0x11134), (0x11136, 0x1113F), (0x11144, 0x11147), (0x11150, 0x11173),
   (0x11176, 0x11176), (0x11180, 0x111C4), (0x111C9, 0x111CC), (0x111CE, 0x111DA),
   (0x111DC, 0x111DC), (0x11200, 0x11211), (0x11213, 0x11237), (0x1123E, 0x1123E),
   (0x11280, 0x11286), (0x11288, 0x11288), (0x1128A, 0x1128D), (0x1128F, 0x1129D),
   (0x1129F, 0x112A8), (0x112B0, 0x112EA), (0x112F0, 0x112F9), (0x11300, 0x11303),
   (0x11305, 0x1130C), (0x1130F, 0x11310), (0x11313, 0x11328), (0x1132A, 0x11330),
   (0x11332, 0x11333), (0x11335, 0x11339), (0x1133B, 0x11344), (0x11347, 0x11348),
   (0x1134B, 0x1134D), (0x11350, 0x11350), (0x11357, 0x11357), (0x1135D, 0x11363),
   (0x11366, 0x1136C), (0x11370, 0x11374), (0x11400, 0x1144A), (0x11450, 0x11459),
   (0x1145E, 0x11461), (0x11480, 0x114C5), (0x114C7, 0x114C7), (0x114D0, 0x114D9),
   (0x11580, 0x115B5), (0x115B8, 0x115C0), (0x115D8, 0x115DD), (0x11600, 0x11640),
   (0x11644, 0x11644), (0x11650, 0x11659), (0x11680, 0x116B8), (0x116C0, 0x116C9),
   (0x11700, 0x1171A), (0x1171D, 0x1172B), (0x11730, 0x11739), (0x11740, 0x11746),
   (0x11800, 0x1183A), (0x118A0, 0x118E9), (0x118FF, 0x11906), (0x11909, 0x11909),
   (0x1190C, 0x11913), (0x11915, 0x11916), (0x11918, 0x11935), (0x11937, 0x11938),
   (0x1193B, 0x11943), (0x11950, 0x11959), (0x119A0, 0x119A7), (0x119AA, 0x119D7),
   (0x119DA, 0x119E1), (0x119E3, 0x119E4), (0x11A00, 0x11A3E), (0x11A47, 0x11A47),
   (0x11A50, 0x11A99), (0x11A9D, 0x11A9D), (0x11AB0, 0x11AF8), (0x11C00, 0x11C08),
   (0x11C0A, 0x11C36), (0x11C38, 0x11C40), (0x11C50, 0x11C59), (0x11C72, 0x11C8F),
   (0x11C92, 0x11CA7), (0x11CA9, 0x11CB6), (0x11D00, 0x11D06), (0x11D08, 0x11D09),
   (0x11D0B, 0x11D36), (0x11D3A, 0x11D3A), (0x11D3C, 0x11D3D), (0x11D3F, 0x11D47),
   (0x11D50, 0x11D59), (0x11D60, 0x11D65), (0x11D67, 0x11D68), (0x11D6A, 0x11D8E),
   (0x11D90, 0x11D91), (0x11D93, 0x11D98), (0x11DA0, 0x11DA9), (0x11EE0, 0x11EF6),
   (0x11FB0, 0x11FB0), (0x12000, 0x12399), (0x12400, 0x1246E), (0x12480, 0x12543),
   (0x12F90, 0x12FF0), (0x13000, 0x1342E), (0x14400, 0x14646), (0x16800, 0x16A38),
   (0x16A40, 0x16A5E), (0x16A60, 0x16A69), (0x16A70, 0x16ABE), (0x16AC0, 0x16AC9),
   (0x16AD0, 0x16AED), (0x16AF0, 0x16AF4), (0x16B00, 0x16B36), (0x16B40, 0x16B43),
   (0x16B50, 0x16B59), (0x16B63, 0x16B77), (0x16B7D, 0x16B8F), (0x16E40, 0x16E7F),
   (0x16F00, 0x16F4A), (0x16F4F, 0x16F87), (0x16F8F, 0x16F9F), (0x16FE0, 0x16FE1),
   (0x16FE3, 0x16FE4), (0x16FF0, 0x16FF1), (0x17000, 0x187F7), (0x18800, 0x18CD5),
   (0x18D00, 0x18D08), (0x1AFF0, 0x1AFF3), (0x1AFF5, 0x1AFFB), (0x1AFFD, 0x1AFFE),
   (0x1B000, 0x1B122), (0x1B150, 0x1B152), (0x1B164, 0x1B167), (0x1B170, 0x1B2FB),
   (0x1BC00, 0x1BC6A), (0x1BC70, 0x1BC7C), (0x1BC80, 0x1BC88), (0x1BC90, 0x1BC99),
   (0x1BC9D, 0x1BC9E), (0x1CF00, 0x1CF2D), (0x1CF30, 0x1CF46), (0x1D165, 0x1D169),
   (0x1D16D, 0x1D172), (0x1D17B, 0x1D182), (0x1D185, 0x1D18B), (0x1D1AA, 0x1D1AD),
   (0x1D242, 0x1D244), (0x1D400, 0x1D454), (0x1D456, 0x1D49C), (0x1D49E, 0x1D49F),
   (0x1D4A2, 0x1D4A2), (0x1D4A5, 0x1D4A6), (0x1D4A9, 0x1D4AC), (0x1D4AE, 0x1D4B9),
   (0x1D4BB, 0x1D4BB), (0x1D4BD, 0x1D4C3), (0x1D4C5, 0x1D505), (0x1D507, 0x1D50A),
   (0x1D50D, 0x1D514), (0x1D516, 0x1D51C), (0x1D51E, 0x1D539), (0x1D53B, 0x1D53E),
   (0x1D540, 0x1D544), (0x1D546, 0x1D546), (0x1D54A, 0x1D550), (0x1D552, 0x1D6A5),
   (0x1D6A8, 0x1D6C0), (0x1D6C2, 0x1D6DA), (0x1D6DC, 0x1D6FA), (0x1D6FC, 0x1D714),
   (0x1D716, 0x1D734), (0x1D736, 0x1D74E), (0x1D750, 0x1D76E), (0x1D770, 0x1D788),
   (0x1D78A, 0x1D7A8), (0x1D7AA, 0x1D7C2), (0x1D7C4, 0x1D7CB), (0x1D7CE, 0x1D7FF),
   (0x1DA00, 0x1DA36), (0x1DA3B, 0x1DA6C), (0x1DA75, 0x1DA75), (0x1DA84, 0x1DA84),
   (0x1DA9B, 0x1DA9F), (0x1DAA1, 0x1DAAF), (0x1DF00, 0x1DF1E), (0x1E000, 0x1E006),
   (0x1E008, 0x1E018), (0x1E01B, 0x1E021), (0x1E023, 0x1E024), (0x1E026, 0x1E02A),
   (0x1E100, 0x1E12C), (0x1E130, 0x1E13D), (0x1E140, 0x1E149), (0x1E14E, 0x1E14E),
   (0x1E290, 0x1E2AE), (0x1E2C0, 0x1E2F9), (0x1E7E0, 0x1E7E6), (0x1E7E8, 0x1E7EB),
   (0x1E7ED, 0x1E7EE), (0x1E7F0, 0x1E7FE), (0x1E800, 0x1E8C4), (0x1E8D0, 0x1E8D6),
   (0x1E900, 0x1E94B), (0x1E950, 0x1E959), (0x1EE00, 0x1EE03), (0x1EE05, 0x1EE1F),
   (0x1EE21, 0x1EE22), (0x1EE24, 0x1EE24), (0x1EE27, 0x1EE27), (0x1EE29, 0x1EE32),
   (0x1EE34, 0x1EE37), (0x1EE39, 0x1EE39), (0x1EE3B, 0x1EE3B), (0x1EE42, 0x1EE42),
   (0x1EE47, 0x1EE47), (0x1EE49, 0x1EE49), (0x1EE4B, 0x1EE4B), (0x1EE4D, 0x1EE4F),
   (0x1EE51, 0x1EE52), (0x1EE54, 0x1EE54), (0x1EE57, 0x1EE57), (0x1EE59, 0x1EE59),
   (0x1EE5B, 0x1EE5B), (0x1EE5D, 0x1EE5D), (0x1EE5F, 0x1EE5F), (0x1EE61, 0x1EE62),
   (0x1EE64, 0x1EE64), (0x1EE67, 0x1EE6A), (0x1EE6C, 0x1EE72), (0x1EE74, 0x1EE77),
   (0x1EE79, 0x1EE7C), (0x1EE7E, 0x1EE7E), (0x1EE80, 0x1EE89), (0x1EE8B, 0x1EE9B),
   (0x1EEA1, 0x1EEA3), (0x1EEA5, 0x1EEA9), (0x1EEAB, 0x1EEBB), (0x1FBF0, 0x1FBF9),
   (0x20000, 0x2A6DF), (0x2A700, 0x2B738), (0x2B740, 0x2B81D), (0x2B820, 0x2CEA1),
   (0x2CEB0, 0x2EBE0), (0x2F800, 0x2FA1D), (0x30000, 0x3134A), (0xE0100, 0xE01EF)]

/-- Regex word character, as used by `\b`: Unicode `\w`. -/
def isWordChar (c : Char) : Bool := inRanges wordRanges c.toNat

/-- Strip `pat` from the front of a list, returning the remainder. -/
def stripPat : List Char → List Char → Option (List Char)
  | [], l => some l
  | _ :: _, [] => none
  | p :: ps, c :: cs => if c = p then stripPat ps cs else none

/-- `\b` before a pattern starting with a word character: satisfied at the
start of the text or after a non-word character.  After a replacement the
scan resumes with the pattern's final `'.'` as the preceding original
character. -/
def boundaryOk : Option Char → Bool
  | none => true
  | some p => !isWordChar p

/-- One abbreviation pass (c): `re.replace_all(&text, replacement)` for
pattern `\bPAT` with `PAT` a literal word ending in `'.'`. -/
def replaceAbbrevAux (pat rep : List Char) : Nat → Option Char → List Char → List Char
  | 0, _, l => l
  | _ + 1, _, [] => []
  | fuel + 1, prev, c :: rest =>
    if boundaryOk prev then
      match stripPat pat (c :: rest) with
      | some rest2 => rep ++ replaceAbbrevAux pat rep fuel (some '.') rest2
      | none => c :: replaceAbbrevAux pat rep fuel (some c) rest
    else c :: replaceAbbrevAux pat rep fuel (some c) rest

def replaceAbbrev (pat rep : List Char) (l : List Char) : List Char :=
  replaceAbbrevAux pat rep l.length none l

/-- The ordered abbreviation table of `normalize.rs` (pattern without the
leading `\b`, replacement). -/
def abbrevExpansions : List (List Char × List Char) :=
  [("Dr.".toList, "Doctor".toList),
   ("Mr.".toList, "Mister".toList),
   ("Mrs.".toList, "Missus".toList),
   ("Ms.".toList, "Miss".toList),
   ("St.".toList, "Street".toList),
   ("Ave.".toList, "Avenue".toList),
   ("Rd.".toList, "Road".toList),
   ("Blvd.".toList, "Boulevard".toList),
   ("etc.".toList, "etcetera".toList)]

/-- Pass (d): `(\d+)-(\d+)` → `$1 to $2`.  At a digit, both `\d+` groups are
greedy maximal runs; on failure the scan advances one character, on success
it resumes after the second group. -/
def rangeAux : Nat → List Char → List Char
  | 0, l => l
  | _ + 1, [] => []
  | fuel + 1, c :: rest =>
    if isRegexDigit c then
      match (c :: rest).span isRegexDigit with
      | (d1, r1) =>
        match r1 with
        | '-' :: r2 =>
          match r2.span isRegexDigit with
          | ([], _) => c :: rangeAux fuel rest
          | (d2, r3) => d1 ++ " to ".toList ++ d2 ++ rangeAux fuel r3
        | _ => c :: rangeAux fuel rest
    else c :: rangeAux fuel rest

def rangeRewrite (l : List Char) : List Char := rangeAux l.length l

/-- Pass (e), the match test at one position: a digit, a comma, a digit. -/
def commaMatch (c : Char) (rest : List Char) : Option (Char × List Char) :=
  if isRegexDigit c then
    match rest with
    | ',' :: d2 :: r => if isRegexDigit d2 then some (d2, r) else none
    | _ => none
  else none

/-- Pass (e): `(\d),(\d)` → `$1$2`; the match consumes both digits, so the
scan resumes after the second digit. -/
def commaAux : Nat → List Char → List Char
  | 0, l => l
  | _ + 1, [] => []
  | fuel + 1, c :: rest =>
    match commaMatch c rest with
    | some (d2, r) => c :: d2 :: commaAux fuel r
    | none => c :: commaAux fuel rest

def commaRewrite (l : List Char) : List Char := commaAux l.length l

/-- Pass (f): `str::trim` — drop Unicode whitespace at both ends. -/
def trimWs (l : List Char) : List Char :=
  ((l.dropWhile isWs).reverse.dropWhile isWs).reverse

/-- `normalize_text` (`normalize.rs`), over character lists. -/
def normalizeList (l : List Char) : List Char :=
  let l1 := collapseWs l
  let l2 := l1.map foldQuote
  let l3 := abbrevExpansions.foldl (fun acc pr => replaceAbbrev pr.1 pr.2 acc) l2
  let l4 := rangeRewrite l3
  let l5 := commaRewrite l4
  trimWs l5

/-- `normalize_text` (`normalize.rs`). -/
def normalize_text (s : String) : String :=
  if s.isEmpty then "" else ⟨normalizeList s.data⟩

example : normalize_text "  Hello,  world!  " = "Hello, world!" := by decide
example : normalize_text "Dr. Smith" = "Doctor Smith" := by decide
example : normalize_text "Visit Mr. Jones at 123 Main St." =
    "Visit Mister Jones at 123 Main Street" := by decide
example : normalize_text "Ages 5-12 welcome" = "Ages 5 to 12 welcome" := by decide
example : normalize_text "$1,000,000" = "$1000000" := by decide
example : normalize_text "  Dr. Smith, at 5-12 Main St.  " =
    "Doctor Smith, at 5 to 12 Main Street" := by decide

/- `\d` is Unicode: Arabic-Indic digits are rewritten exactly like ASCII
ones (and chained ranges leave residue for a second pass the same way). -/
example : normalize_text "١-٢-٣" = "١ to ٢-٣" := by decide
example : normalize_text (normalize_text "١-٢-٣") = "١ to ٢ to ٣" := by decide

/-! ## Voice catalog (`voices.rs`) -/

inductive AmericanFemaleVoice | Bella | Nicole | Sky
deriving DecidableEq, Fintype

inductive AmericanMaleVoice | Fenrir | Michael | Puck
deriving DecidableEq, Fintype

inductive BritishFemaleVoice | Emma | Isabella | Lily
deriving DecidableEq, Fintype

inductive BritishMaleVoice | Fable | George | Lewis
deriving DecidableEq, Fintype

inductive VoiceType
  | AmericanFemale (voice : AmericanFemaleVoice)
  | AmericanMale (voice : AmericanMaleVoice)
  | BritishFemale (voice : BritishFemaleVoice)
  | BritishMale (voice : BritishMaleVoice)
deriving DecidableEq, Fintype

/-- `VoiceType::file_name`. -/
def VoiceType.file_name : VoiceType → String
  | .AmericanFemale .Bella => "af_bella.bin"
  | .AmericanFemale .Nicole => "af_nicole.bin"
  | .AmericanFemale .Sky => "af_sky.bin"
  | .AmericanMale .Fenrir => "am_fenrir.bin"
  | .AmericanMale .Michael => "am_michael.bin"
  | .AmericanMale .Puck => "am_puck.bin"
  | .BritishFemale .Emma => "bf_emma.bin"
  | .BritishFemale .Isabella => "bf_isabella.bin"
  | .BritishFemale .Lily => "bf_lily.bin"
  | .BritishMale .Fable => "bm_fable.bin"
  | .BritishMale .George => "bm_george.bin"
  | .BritishMale .Lewis => "bm_lewis.bin"

/-- `VoiceType::language`. -/
def VoiceType.language : VoiceType → String
  | .AmericanFemale _ | .AmericanMale _ => "en-us"
  | .BritishFemale _ | .BritishMale _ => "en-gb"

/-! ## Cache key (`tts.rs`, `generate_cache_key`)

`format!("{}:{}:{}", text, voice_type.file_name(), speed)` — the `f32`
speed is embedded through its `Display` form, which is injective on `f32`
values (shortest round-tripping decimal); the key is therefore modelled as
a function of the speed's formatted text. -/

def generate_cache_key (text : String) (voiceType : VoiceType) (speedStr : String) : String :=
  text ++ ":" ++ voiceType.file_name ++ ":" ++ speedStr

/-! ## Style vector (`model.rs`, inside `infer`)

The source pre-fills `style_data` with 256 zeros; if the embedding has
exactly `510*256` elements it overwrites entry `i` with the mean of column
`i` over the 510 rows, otherwise it appends (`extend_from_slice`) the first
`min(256, len)` embedding elements after the zeros and then truncates
(`Vec::resize`) back to length 256. -/

/-- `Vec::resize(n, pad)`: truncate to `n` or pad with `pad` up to `n`. -/
def vecResize (l : List ℚ) (n : Nat) (pad : ℚ) : List ℚ :=
  if n ≤ l.length then l.take n else l ++ List.replicate (n - l.length) pad

/-- The style tensor data computed inside `KokoroModel::infer`. -/
def styleData (voiceEmbedding : List ℚ) : List ℚ :=
  if voiceEmbedding.length = 510 * 256 then
    (List.range 256).map (fun i =>
      ((List.range 510).map (fun j => voiceEmbedding.getD (j * 256 + i) 0)).sum / 510)
  else
    vecResize (List.replicate 256 (0 : ℚ)
      ++ voiceEmbedding.take (min 256 voiceEmbedding.length)) 256 0

/-- Modelled from the spec: the **StyleVector** reference definition —
averaging of the 510 rows when the embedding has `510*256` elements, and
for any other length the first `min(256, len)` elements zero-padded to
256 (the degraded-mode fallback the spec defines).  Stated only to compare
the source's `styleData` against it. -/
def styleVectorSpec (voiceEmbedding : List ℚ) : List ℚ :=
  if voiceEmbedding.length = 510 * 256 then
    (List.range 256).map (fun i =>
      ((List.range 510).map (fun j => voiceEmbedding.getD (j * 256 + i) 0)).sum / 510)
  else
    voiceEmbedding.take (min 256 voiceEmbedding.length)
      ++ List.replicate (256 - min 256 voiceEmbedding.length) 0

/-! ## Voice embedding load (`model.rs`, `load_voice_embedding`)

The file system is modelled as `Option (List Nat)` — `none` for a missing
file, otherwise the byte contents (each byte `< 256`).  The `f32` values
produced by `f32::from_le_bytes` are represented by their 32-bit
little-endian bit patterns; the claim is about the count, chunking and
length check, not about float arithmetic. -/

inductive TtsError
  | ModelLoadError (msg : String)
  | PhonemeError (msg : String)
  | TokenizationError (msg : String)
  | InferenceError (msg : String)
  | VoiceDataError (msg : String)
deriving DecidableEq

/-- `buffer.chunks_exact(4)` + `f32::from_le_bytes` over the chunks:
decode consecutive 4-byte little-endian groups (an incomplete trailing
group is dropped, as `chunks_exact` drops the remainder). -/
def decodeF32LE : List Nat → List Nat
  | b0 :: b1 :: b2 :: b3 :: rest =>
    (b0 + 256 * b1 + 65536 * b2 + 16777216 * b3) :: decodeF32LE rest
  | _ => []

/-- `KokoroModel::load_voice_embedding`, given the bytes of the voice's
file (or `none` when the file does not exist). -/
def load_voice_embedding (file : Option (List Nat)) : Except TtsError (List Nat) :=
  match file with
  | none => .error (.VoiceDataError "Voice file not found")
  | some buffer =>
    if buffer.length ≠ 510 * 1 * 256 * 4 then
      .error (.VoiceDataError "Voice file has unexpected size")
    else
      .ok (decodeF32LE buffer)

/-! ## Audio encoder (`tts.rs`, `audio_to_wav`)

The per-sample conversion `(sample.clamp(-1.0, 1.0) * i16::MAX as f32) as
i16` is embedded from the source over `ℚ` (the `as i16` cast truncates
toward zero).  The byte layout of the container is produced by the external
`hound` crate; it is modelled from the spec: a standard 44-byte
`RIFF`/`WAVE` PCM header declaring mono, 16 bits per sample, 24000 Hz,
followed by the samples as little-endian 16-bit words. -/

/-- `f32::clamp` over `ℚ`. -/
def clampQ (x lo hi : ℚ) : ℚ := if x < lo then lo else if hi < x then hi else x

/-- Truncation toward zero, the semantics of Rust's float-to-int `as`. -/
def ratTrunc (q : ℚ) : Int := Int.tdiv q.num q.den

/-- The `i16` sample written for one `f32` sample. -/
def sampleToI16 (sample : ℚ) : Int := ratTrunc (clampQ sample (-1) 1 * 32767)

/-- Little-endian bytes of an unsigned value, `k` bytes wide. -/
def leBytes : Nat → Nat → List Nat
  | 0, _ => []
  | k + 1, v => v % 256 :: leBytes k (v / 256)

/-- Two's-complement little-endian encoding of an `i16`. -/
def i16le (v : Int) : List Nat := leBytes 2 (v % 65536).toNat

/-- Modelled from the spec: the uncompressed-audio container header written
by the external `hound` crate for `WavSpec { channels: 1, sample_rate:
24000, bits_per_sample: 16, SampleFormat::Int }` — the standard 44-byte
RIFF/WAVE PCM header for `n` 16-bit mono samples. -/
def wavHeader (n : Nat) : List Nat :=
  [82, 73, 70, 70] ++ leBytes 4 (36 + 2 * n)   -- "RIFF", chunk size
    ++ [87, 65, 86, 69]                        -- "WAVE"
    ++ [102, 109, 116, 32] ++ leBytes 4 16     -- "fmt ", subchunk size
    ++ leBytes 2 1                             -- PCM format tag
    ++ leBytes 2 1                             -- channels: mono
    ++ leBytes 4 24000                         -- sample rate
    ++ leBytes 4 48000                         -- byte rate
    ++ leBytes 2 2                             -- block align
    ++ leBytes 2 16                            -- bits per sample
    ++ [100, 97, 116, 97] ++ leBytes 4 (2 * n) -- "data", data size

/-- `KokoroTTS::audio_to_wav`: header followed by the converted samples. -/
def audio_to_wav (audio_data : List ℚ) : List Nat :=
  wavHeader audio_data.length
    ++ audio_data.flatMap (fun sample => i16le (sampleToI16 sample))

example : (audio_to_wav [0, 1, -1]).length = 50 := by decide
example : audio_to_wav [0, 1, -1] =
    wavHeader 3 ++ [0, 0, 255, 127, 1, 128] := by with_unfolding_all rfl

/-! ## Synthesis orchestrator (`tts.rs`)

`KokoroTTS` holds the model (voice-embedding map) and an LRU cache of 50
entries with a fixed 1-hour TTL.  The cache is modelled as an association
list in most-recently-used-first order; `LruCache::get` promotes the entry
it finds, `LruCache::put` inserts at the front and drops entries beyond
capacity from the least-recently-used end.  `Instant` is an abstract `Nat`
time; a call receives the current time `now` and `entry.timestamp.elapsed()`
is `now - entry.timestamp`.  The two opaque collaborators — the phonemizer
(`text_to_phonemes_string`) and the ONNX session invocation inside
`KokoroModel::infer` (together with the lazy embedding-file load) — are
fields of `TtsEnv`. -/

/-- `CACHE_TTL`: one hour, in seconds. -/
def CACHE_TTL : Nat := 60 * 60

structure CacheEntry where
  audio : List ℚ
  timestamp : Nat
deriving DecidableEq

/-- Remove every binding of `k` (an `LruCache` holds at most one). -/
def cacheRemove (cache : List (String × CacheEntry)) (k : String) :
    List (String × CacheEntry) :=
  cache.filter (fun p => p.1 ≠ k)

/-- `LruCache::get`: the found entry is promoted to most-recently-used. -/
def lruGet (cache : List (String × CacheEntry)) (k : String) :
    Option CacheEntry × List (String × CacheEntry) :=
  match cache.find? (fun p => p.1 == k) with
  | some p => (some p.2, (k, p.2) :: cacheRemove cache k)
  | none => (none, cache)

/-- `LruCache::pop`: remove the binding of `k`. -/
def lruPop (cache : List (String × CacheEntry)) (k : String) :
    List (String × CacheEntry) :=
  cacheRemove cache k

/-- `LruCache::put`: insert (or replace) at the most-recently-used end and
evict from the least-recently-used end beyond `cap`. -/
def lruPut (cache : List (String × CacheEntry)) (k : String) (e : CacheEntry)
    (cap : Nat) : List (String × CacheEntry) :=
  ((k, e) :: cacheRemove cache k).take cap

/-- The state owned by `KokoroTTS` (model's embedding map behind one lock,
cache behind the other; a single sequential call is modelled, so the two
mutexes collapse to plain state). -/
structure KokoroState where
  voiceEmbeddings : List (VoiceType × List ℚ)
  cache : List (String × CacheEntry)
  cacheTtl : Nat
  cacheCap : Nat
deriving DecidableEq

/-- `KokoroTTS::new` after a successful model load: the given preloaded
embeddings, an empty cache of capacity 50, and `cache_ttl = CACHE_TTL`. -/
def KokoroTTS_new (voiceEmbeddings : List (VoiceType × List ℚ)) : KokoroState :=
  { voiceEmbeddings := voiceEmbeddings, cache := [], cacheTtl := CACHE_TTL, cacheCap := 50 }

/-- The opaque collaborators of the pipeline. -/
structure TtsEnv where
  /-- `text_to_phonemes_string text lang` (espeak behind a mutex). -/
  phonemize : String → String → Except String String
  /-- The ONNX `session.run` on `(input_ids, style, speed)` plus waveform
  extraction, as an opaque function of the prepared tensors. -/
  runSession : List Int → List ℚ → ℚ → Except String (List ℚ)
  /-- Reading and decoding one voice's embedding file (the byte-level
  length check and decode are embedded separately as
  `load_voice_embedding`; here the loaded values feed arithmetic, so the
  collaborator produces the `ℚ` view). -/
  loadVoice : VoiceType → Except TtsError (List ℚ)

/-- `KokoroModel::get_voice_embedding`: serve from the embedding map, else
load, store and serve (`at-most-one` load per voice). -/
def get_voice_embedding (env : TtsEnv) (st : KokoroState) (voiceType : VoiceType) :
    Except TtsError (List ℚ) × KokoroState :=
  match st.voiceEmbeddings.find? (fun p => p.1 == voiceType) with
  | some p => (.ok p.2, st)
  | none =>
    match env.loadVoice voiceType with
    | .ok embedding =>
      (.ok embedding,
        { st with voiceEmbeddings := (voiceType, embedding) :: st.voiceEmbeddings })
    | .error e => (.error e, st)

/-- `KokoroModel::infer`: build the style vector from the embedding, run
the session, wrap failures as `InferenceError`. -/
def infer (env : TtsEnv) (tokens : List Int) (voice_embedding : List ℚ) (speed : ℚ) :
    Except TtsError (List ℚ) :=
  match env.runSession tokens (styleData voice_embedding) speed with
  | .ok audio => .ok audio
  | .error e => .error (.InferenceError e)

/-- The miss path of `KokoroTTS::process_tts` (the code after the cache
lookup block): phonemize, tokenize and pad, resolve the embedding, infer,
and insert the result into the cache with the current timestamp. -/
def process_tts_generate (env : TtsEnv) (st1 : KokoroState) (normalized_text : String)
    (cache_key : String) (voiceType : VoiceType) (speed : ℚ) (now : Nat) :
    Except TtsError (List ℚ) × KokoroState :=
  match env.phonemize normalized_text voiceType.language with
  | .error e => (.error (.PhonemeError e), st1)
  | .ok phonemes =>
    let tokens := tokenize phonemes.toList
    let padded_tokens := [(0 : Int)] ++ tokens ++ [(0 : Int)]
    match get_voice_embedding env st1 voiceType with
    | (.error _, st2) => (.error (.VoiceDataError "Voice embedding not found"), st2)
    | (.ok voice_embedding, st2) =>
      match infer env padded_tokens voice_embedding speed with
      | .error e => (.error e, st2)
      | .ok audio_data =>
        (.ok audio_data,
          { st2 with cache := lruPut st2.cache cache_key ⟨audio_data, now⟩ st2.cacheCap })

/-- `KokoroTTS::process_tts`.  `speedStr` is the `Display` form of the
`f32` speed, used only inside the cache key (the numeric value `speed` is
passed to inference).  Note the source performs no speed validation
here. -/
def process_tts (env : TtsEnv) (st : KokoroState) (text : String)
    (voiceType : VoiceType) (speed : ℚ) (speedStr : String) (now : Nat) :
    Except TtsError (List ℚ) × KokoroState :=
  let normalized_text := normalize_text text
  let cache_key := generate_cache_key normalized_text voiceType speedStr
  let afterLookup : Option (List ℚ) × List (String × CacheEntry) :=
    match lruGet st.cache cache_key with
    | (some entry, bumped) =>
      if now - entry.timestamp < st.cacheTtl then (some entry.audio, bumped)
      else (none, lruPop bumped cache_key)
    | (none, c) => (none, c)
  match afterLookup with
  | (some audio, cache1) => (.ok audio, { st with cache := cache1 })
  | (none, cache1) =>
    process_tts_generate env { st with cache := cache1 } normalized_text cache_key
      voiceType speed now

/-! ## HTTP handler (`handlers/tts.rs`, `synthesize_speech`)

The handler parses the voice string, applies the default speed `1.0`
(`Display` form `"1"`), validates `(0.5..=2.0).contains(&speed)`, and only
then invokes `process_tts`; failures map to `(status, message)` pairs. -/

/-- An `f32` speed as its value together with its `Display` form. -/
structure SpeedVal where
  val : ℚ
  text : String
deriving DecidableEq

structure TtsRequest where
  text : String
  voice : String
  speed : Option SpeedVal
deriving DecidableEq

/-- `parse_voice` (`handlers/tts.rs`). -/
def parse_voice : String → Except String VoiceType
  | "american_female_bella" => .ok (.AmericanFemale .Bella)
  | "american_female_nicole" => .ok (.AmericanFemale .Nicole)
  | "american_female_sky" => .ok (.AmericanFemale .Sky)
  | "american_male_fenrir" => .ok (.AmericanMale .Fenrir)
  | "american_male_michael" => .ok (.AmericanMale .Michael)
  | "american_male_puck" => .ok (.AmericanMale .Puck)
  | "british_female_emma" => .ok (.BritishFemale .Emma)
  | "british_female_isabella" => .ok (.BritishFemale .Isabella)
  | "british_female_lily" => .ok (.BritishFemale .Lily)
  | "british_male_fable" => .ok (.BritishMale .Fable)
  | "british_male_george" => .ok (.BritishMale .George)
  | "british_male_lewis" => .ok (.BritishMale .Lewis)
  | voiceStr => .error ("Unsupported voice: " ++ voiceStr)

/-- `(0.5..=2.0).contains(&speed)`. -/
def speedValid (speed : ℚ) : Bool := decide ((1 / 2 : ℚ) ≤ speed ∧ speed ≤ 2)

/-- `synthesize_speech` (`handlers/tts.rs`), after a successful `get_tts`:
voice parsing, speed defaulting and validation, the `process_tts` call and
WAV encoding.  Errors are `(HTTP status, message)`. -/
def synthesize_speech (env : TtsEnv) (st : KokoroState) (request : TtsRequest)
    (now : Nat) : Except (Nat × String) (List Nat) × KokoroState :=
  match parse_voice request.voice with
  | .error e => (.error (400, e), st)
  | .ok voice =>
    let speed := request.speed.getD ⟨1, "1"⟩
    if speedValid speed.val then
      match process_tts env st request.text voice speed.val speed.text now with
      | (.error _, st') => (.error (500, "TTS processing error"), st')
      | (.ok audio, st') => (.ok (audio_to_wav audio), st')
    else
      (.error (400, "Speed must be between 0.5 and 2.0"), st)

/-! ## Helper lemmas -/

/-- The character data of a generated cache key. -/
lemma generate_cache_key_data (t : String) (v : VoiceType) (s : String) :
    (generate_cache_key t v s).data =
      t.data ++ ':' :: (v.file_name.data ++ ':' :: s.data) := by
  have hc : (":" : String).data = [':'] := rfl
  simp [generate_cache_key, String.data_append, hc]

/-- The twelve voice file names are pairwise distinct. -/
lemma file_name_injective : ∀ v₁ v₂ : VoiceType,
    v₁.file_name = v₂.file_name → v₁ = v₂ := by decide

/-! ## Claim C8 -/

/-- **C8.** The cache key is a deterministic function of
`(normalized text, voice, speed)`: identical triples yield identical keys;
with text and speed fixed, distinct voices yield distinct keys; with text
and voice fixed, distinct speed texts (the `f32`'s full-precision `Display`
form, no epsilon) yield distinct keys; with voice and speed fixed, distinct
normalized texts yield distinct keys. -/
theorem generate_cache_key_deterministic_injective :
    (∀ (t : String) (v : VoiceType) (s : String),
      generate_cache_key t v s = generate_cache_key t v s)
  ∧ (∀ (t s : String) (v₁ v₂ : VoiceType), v₁ ≠ v₂ →
      generate_cache_key t v₁ s ≠ generate_cache_key t v₂ s)
  ∧ (∀ (t : String) (v : VoiceType) (s₁ s₂ : String), s₁ ≠ s₂ →
      generate_cache_key t v s₁ ≠ generate_cache_key t v s₂)
  ∧ (∀ (t₁ t₂ : String) (v : VoiceType) (s : String), t₁ ≠ t₂ →
      generate_cache_key t₁ v s ≠ generate_cache_key t₂ v s) := by
  refine ⟨fun _ _ _ => rfl, ?_, ?_, ?_⟩
  · intro t s v₁ v₂ hv h
    apply hv
    have hd := congrArg String.data h
    rw [generate_cache_key_data, generate_cache_key_data] at hd
    have h₂ := List.cons_injective (List.append_cancel_left hd)
    exact file_name_injective v₁ v₂ (String.ext (List.append_cancel_right h₂))
  · intro t v s₁ s₂ hs h
    apply hs
    have hd := congrArg String.data h
    rw [generate_cache_key_data, generate_cache_key_data] at hd
    have h₂ := List.cons_injective (List.append_cancel_left hd)
    exact String.ext (List.cons_injective (List.append_cancel_left h₂))
  · intro t₁ t₂ v s ht h
    apply ht
    have hd := congrArg String.data h
    rw [generate_cache_key_data, generate_cache_key_data] at hd
    exact String.ext (List.append_cancel_right hd)

/-- Witness for C8: the three injectivity parts applied at concrete
inputs — Bella vs Emma, speed text `"1"` vs `"1.5"`, text `"a"` vs `"b"`. -/
theorem generate_cache_key_deterministic_injective_witness :
    generate_cache_key "Hello world" (.AmericanFemale .Bella) "1" ≠
        generate_cache_key "Hello world" (.BritishFemale .Emma) "1"
  ∧ generate_cache_key "Hello world" (.AmericanFemale .Bella) "1" ≠
        generate_cache_key "Hello world" (.AmericanFemale .Bella) "1.5"
  ∧ generate_cache_key "a" (.AmericanFemale .Bella) "1" ≠
        generate_cache_key "b" (.AmericanFemale .Bella) "1" :=
  ⟨generate_cache_key_deterministic_injective.2.1 "Hello world" "1" _ _ (by decide),
   generate_cache_key_deterministic_injective.2.2.1 "Hello world" (.AmericanFemale .Bella)
     "1" "1.5" (by decide),
   generate_cache_key_deterministic_injective.2.2.2 "a" "b" (.AmericanFemale .Bella)
     "1" (by decide)⟩

/-! ## Claim C6 -/

/-- Four bytes more input yields one more decoded value. -/
lemma decodeF32LE_cons4 (b0 b1 b2 b3 : Nat) (rest : List Nat) :
    decodeF32LE (b0 :: b1 :: b2 :: b3 :: rest) =
      (b0 + 256 * b1 + 65536 * b2 + 16777216 * b3) :: decodeF32LE rest := rfl

/-- `chunks_exact(4)` decoding: the output holds one value per complete
4-byte group. -/
lemma decodeF32LE_length : ∀ l : List Nat, (decodeF32LE l).length = l.length / 4
  | [] => by simp [decodeF32LE]
  | [_] => by simp [decodeF32LE]
  | [_, _] => by simp [decodeF32LE]
  | [_, _, _] => by simp [decodeF32LE]
  | _ :: _ :: _ :: _ :: rest => by
    rw [decodeF32LE_cons4, List.length_cons, decodeF32LE_length rest]
    simp only [List.length_cons]
    omega

/-- Skipping one complete 4-byte chunk. -/
lemma getD_cons4 (a b c d : Nat) (l : List Nat) (n : Nat) :
    (a :: b :: c :: d :: l).getD (n + 4) 0 = l.getD n 0 := by
  show (a :: b :: c :: d :: l).getD (n + 1 + 1 + 1 + 1) 0 = l.getD n 0
  simp only [List.getD_cons_succ]

/-- Value `i` of the decode is the little-endian reading of bytes
`4*i .. 4*i+3`. -/
lemma decodeF32LE_getD : ∀ (l : List Nat) (i : Nat), 4 * i + 3 < l.length →
    (decodeF32LE l).getD i 0 =
      l.getD (4 * i) 0 + 256 * l.getD (4 * i + 1) 0
        + 65536 * l.getD (4 * i + 2) 0 + 16777216 * l.getD (4 * i + 3) 0
  | [], i, h => by simp only [List.length_nil] at h; omega
  | [_], i, h => by simp only [List.length_cons, List.length_nil] at h; omega
  | [_, _], i, h => by simp only [List.length_cons, List.length_nil] at h; omega
  | [_, _, _], i, h => by simp only [List.length_cons, List.length_nil] at h; omega
  | b0 :: b1 :: b2 :: b3 :: rest, 0, _ => rfl
  | b0 :: b1 :: b2 :: b3 :: rest, i + 1, h => by
    have hrest : 4 * i + 3 < rest.length := by
      simp only [List.length_cons] at h; omega
    have e0 : 4 * (i + 1) = 4 * i + 4 := by omega
    have e1 : 4 * (i + 1) + 1 = (4 * i + 1) + 4 := by omega
    have e2 : 4 * (i + 1) + 2 = (4 * i + 2) + 4 := by omega
    have e3 : 4 * (i + 1) + 3 = (4 * i + 3) + 4 := by omega
    rw [decodeF32LE_cons4, List.getD_cons_succ, decodeF32LE_getD rest i hrest,
      e3, e2, e1, e0, getD_cons4, getD_cons4, getD_cons4, getD_cons4]

/-- **C6.** `load_voice_embedding` succeeds iff the file exists and its
byte length is exactly `510*1*256*4`; on success it yields exactly
`510*1*256 = 130560` values, value `i` being the little-endian reading of
the consecutive 4-byte chunk starting at byte `4*i`; any other byte length
fails with a voice-data error `VoiceDataError`. -/
theorem load_voice_embedding_spec :
    (∀ file : Option (List Nat), (load_voice_embedding file).isOk = true ↔
      ∃ buffer, file = some buffer ∧ buffer.length = 510 * 1 * 256 * 4)
  ∧ (∀ buffer : List Nat, buffer.length = 510 * 1 * 256 * 4 →
      load_voice_embedding (some buffer) = .ok (decodeF32LE buffer)
      ∧ (decodeF32LE buffer).length = 510 * 1 * 256
      ∧ ∀ i < 510 * 1 * 256,
          (decodeF32LE buffer).getD i 0 =
            buffer.getD (4 * i) 0 + 256 * buffer.getD (4 * i + 1) 0
              + 65536 * buffer.getD (4 * i + 2) 0
              + 16777216 * buffer.getD (4 * i + 3) 0)
  ∧ (∀ buffer : List Nat, buffer.length ≠ 510 * 1 * 256 * 4 →
      load_voice_embedding (some buffer) =
        .error (.VoiceDataError "Voice file has unexpected size"))
  ∧ load_voice_embedding none = .error (.VoiceDataError "Voice file not found") := by
  refine ⟨?_, ?_, ?_, rfl⟩
  · intro file
    constructor
    · intro h
      match file with
      | none => simp [load_voice_embedding, Except.isOk, Except.toBool] at h
      | some buffer =>
        refine ⟨buffer, rfl, ?_⟩
        by_contra hlen
        simp [load_voice_embedding, hlen, Except.isOk, Except.toBool] at h
    · rintro ⟨buffer, rfl, hlen⟩
      simp [load_voice_embedding, hlen, Except.isOk, Except.toBool]
  · intro buffer hlen
    refine ⟨by simp [load_voice_embedding, hlen], ?_, ?_⟩
    · rw [decodeF32LE_length, hlen]
    · intro i hi
      exact decodeF32LE_getD buffer i (by omega)
  · intro buffer hlen
    simp [load_voice_embedding, hlen]

/-- Witness for C6: a 522240-byte zero file loads (giving 130560 zero
values, value 0 decoding bytes 0..3), and a 7-byte file fails. -/
theorem load_voice_embedding_spec_witness :
    (load_voice_embedding (some (List.replicate (510 * 1 * 256 * 4) 0))).isOk = true
  ∧ (decodeF32LE (List.replicate (510 * 1 * 256 * 4) 0)).length = 510 * 1 * 256
  ∧ load_voice_embedding (some [1, 2, 3, 4, 5, 6, 7]) =
      .error (.VoiceDataError "Voice file has unexpected size") :=
  ⟨(load_voice_embedding_spec.1 _).mpr
      ⟨_, rfl, List.length_replicate _ _⟩,
   (load_voice_embedding_spec.2.1 (List.replicate (510 * 1 * 256 * 4) 0)
      (List.length_replicate _ _)).2.1,
   load_voice_embedding_spec.2.2.1 [1, 2, 3, 4, 5, 6, 7] (by decide)⟩

/-! ## Claim C2 -/

/-- The spec's synthetic 510×256 embedding whose column `i` holds the
constant value `i`: element `j*256 + i` is `i`, i.e. element `k` is
`k % 256`. -/
def syntheticEmbedding : List ℚ := (List.range (510 * 256)).map (fun k => ((k % 256 : ℕ) : ℚ))

lemma syntheticEmbedding_length : syntheticEmbedding.length = 510 * 256 := by
  rw [syntheticEmbedding, List.length_map, List.length_range]

lemma syntheticEmbedding_getD (k : Nat) (h : k < 510 * 256) :
    syntheticEmbedding.getD k 0 = ((k % 256 : ℕ) : ℚ) := by
  rw [syntheticEmbedding, List.getD_eq_getElem?_getD, List.getElem?_map,
    List.getElem?_range h]
  rfl

/-- **C2.** The averaging branch of the source's style-vector computation
matches the spec's reference definition — on the synthetic 510×256
embedding whose column `i` is constantly `i` it produces exactly
`[0, 1, ..., 255]` — but the fallback branch for embeddings of unexpected
length does **not** take the first `min(256, len)` elements zero-padded:
it appends them after the 256 pre-filled zeros and then truncates back to
256, so it always produces 256 zeros (here shown on the length-1 embedding
`[1]`, where the source comment `Fallback - just use the first 256
elements` and the spec demand `[1, 0, ..., 0]`). -/
theorem styleData_averaging_ok_fallback_code_bug :
    styleData syntheticEmbedding = (List.range 256).map (fun i => (i : ℚ))
  ∧ styleData [1] = List.replicate 256 0
  ∧ styleVectorSpec [1] = 1 :: List.replicate 255 0
  ∧ styleData [1] ≠ styleVectorSpec [1] := by
  refine ⟨?_, by decide, by decide, by decide⟩
  rw [styleData, if_pos syntheticEmbedding_length]
  apply List.map_congr_left
  intro i hi
  have hi' : i < 256 := List.mem_range.mp hi
  have hcol : (List.range 510).map (fun j => syntheticEmbedding.getD (j * 256 + i) 0)
      = List.replicate 510 (i : ℚ) := by
    have hconst : ∀ j ∈ List.range 510,
        syntheticEmbedding.getD (j * 256 + i) 0 = (i : ℚ) := by
      intro j hj
      have hj' : j < 510 := List.mem_range.mp hj
      rw [syntheticEmbedding_getD (j * 256 + i) (by omega)]
      congr 1
      omega
    rw [List.map_congr_left hconst, List.map_const', List.length_range]
  rw [hcol, List.sum_replicate, nsmul_eq_mul, Nat.cast_ofNat]
  exact mul_div_cancel_left₀ _ (by norm_num)

/-! ## Claim C9 -/

/-- The clamped sample lies in `[-1, 1]`. -/
lemma clampQ_bounds (s : ℚ) : -1 ≤ clampQ s (-1) 1 ∧ clampQ s (-1) 1 ≤ 1 := by
  unfold clampQ
  split_ifs with h1 h2
  · exact ⟨le_refl _, by norm_num⟩
  · exact ⟨by norm_num, le_refl _⟩
  · push_neg at h1 h2
    exact ⟨h1, h2⟩

lemma ratTrunc_neg (q : ℚ) : ratTrunc (-q) = -ratTrunc q := by
  rw [ratTrunc, ratTrunc, Rat.neg_num, Rat.neg_den, Int.neg_tdiv]

lemma ratTrunc_eq_floor_of_nonneg (q : ℚ) (h : 0 ≤ q) : ratTrunc q = ⌊q⌋ := by
  rw [Rat.floor_def, ratTrunc]
  exact Int.tdiv_eq_ediv (Rat.num_nonneg.mpr h) (Int.natCast_nonneg _)

/-- Truncation of a value in `[0, 32767]` stays in `[0, 32767]`. -/
lemma ratTrunc_bounds_of_nonneg (q : ℚ) (h0 : 0 ≤ q) (h1 : q ≤ 32767) :
    0 ≤ ratTrunc q ∧ ratTrunc q ≤ 32767 := by
  rw [ratTrunc_eq_floor_of_nonneg q h0]
  constructor
  · exact Int.floor_nonneg.mpr h0
  · have := Int.floor_le_floor h1
    rwa [show ⌊(32767 : ℚ)⌋ = 32767 by norm_num] at this

/-- The length of one encoded sample. -/
lemma i16le_length (v : Int) : (i16le v).length = 2 := rfl

lemma sampleBytes_length (audio_data : List ℚ) :
    (audio_data.flatMap (fun sample => i16le (sampleToI16 sample))).length =
      2 * audio_data.length := by
  induction audio_data with
  | nil => rfl
  | cons s rest ih =>
    simp only [List.flatMap_cons, List.length_append, i16le_length, ih, List.length_cons]
    omega

lemma wavHeader_length (n : Nat) : (wavHeader n).length = 44 := rfl

/-- **C9.** Every sample is clamped to `[-1, 1]` before scaling by 32767,
so the scaled value always fits in `i16`; the encoder output starts with a
`RIFF`/`WAVE` header declaring mono (1 channel), 24000 Hz, 16 bits per
sample; and for a non-empty sample sequence the output is longer than the
44-byte header. -/
theorem audio_to_wav_spec :
    (∀ sample : ℚ, -32767 ≤ sampleToI16 sample ∧ sampleToI16 sample ≤ 32767)
  ∧ (∀ audio_data : List ℚ,
      (audio_to_wav audio_data).take 4 = [82, 73, 70, 70]
      ∧ ((audio_to_wav audio_data).drop 8).take 4 = [87, 65, 86, 69]
      ∧ ((audio_to_wav audio_data).drop 22).take 2 = [1, 0]
      ∧ ((audio_to_wav audio_data).drop 24).take 4 = [192, 93, 0, 0]
      ∧ ((audio_to_wav audio_data).drop 34).take 2 = [16, 0]
      ∧ (audio_to_wav audio_data).length = 44 + 2 * audio_data.length)
  ∧ (∀ audio_data : List ℚ, audio_data ≠ [] →
      44 < (audio_to_wav audio_data).length) := by
  have hlen : ∀ audio_data : List ℚ,
      (audio_to_wav audio_data).length = 44 + 2 * audio_data.length := by
    intro audio_data
    rw [audio_to_wav, List.length_append, wavHeader_length, sampleBytes_length]
  refine ⟨?_, fun audio_data =>
    ⟨by simp [audio_to_wav, wavHeader, leBytes],
     by simp [audio_to_wav, wavHeader, leBytes],
     by simp [audio_to_wav, wavHeader, leBytes],
     by simp [audio_to_wav, wavHeader, leBytes],
     by simp [audio_to_wav, wavHeader, leBytes],
     hlen audio_data⟩, ?_⟩
  · intro sample
    obtain ⟨hc1, hc2⟩ := clampQ_bounds sample
    rcases le_or_lt 0 (clampQ sample (-1) 1 * 32767) with hp | hp
    · obtain ⟨hb1, hb2⟩ := ratTrunc_bounds_of_nonneg _ hp (by nlinarith)
      exact ⟨by unfold sampleToI16; omega, hb2⟩
    · have hneg : 0 ≤ -(clampQ sample (-1) 1 * 32767) := by linarith
      obtain ⟨hb1, hb2⟩ := ratTrunc_bounds_of_nonneg _ hneg (by nlinarith)
      rw [ratTrunc_neg] at hb1 hb2
      exact ⟨by unfold sampleToI16; omega, by unfold sampleToI16; omega⟩
  · intro audio_data hne
    have := List.length_pos.mpr hne
    rw [hlen]
    omega

/-- Witness for C9: the spec's sample sequence `[0.0, 1.0, -1.0]` encodes
to more than 44 bytes. -/
theorem audio_to_wav_spec_witness : 44 < (audio_to_wav [0, 1, -1]).length :=
  audio_to_wav_spec.2.2 [0, 1, -1] (List.cons_ne_nil 0 [1, -1])

/-! ## Claims C7 and C10 -/

/-- A character's assigned index points back at an occurrence of the
character: `VOCABULARY` maps `c` to `i` only when position `i` of the
concatenation holds `c` (its last occurrence). -/
lemma vocabGet_get? {c : Char} {i : Nat} (h : vocabGet c = some i) :
    symbols.get? i = some c := by
  rw [vocabGet] at h
  obtain ⟨pr, hlast, hfst⟩ := Option.map_eq_some'.mp h
  have hmem : pr ∈ symbols.enum.filter (fun p => p.2 = c) := by
    obtain ⟨ys, hys⟩ := List.getLast?_eq_some_iff.mp hlast
    rw [hys]
    exact List.mem_append_right _ (List.mem_singleton_self _)
  obtain ⟨henum, hpc⟩ := List.mem_filter.mp hmem
  have hpc' : pr.2 = c := by simpa using hpc
  have := List.mem_enum_iff_get?.mp henum
  rw [hfst] at this
  rw [this, hpc']

lemma vocabGet_lt {c : Char} {i : Nat} (h : vocabGet c = some i) : i < 178 := by
  obtain ⟨hlt, _⟩ := List.get?_eq_some.mp (vocabGet_get? h)
  have hlen : symbols.length = 178 := by decide
  omega

/-- Characters present in the concatenation are assigned an index. -/
lemma vocabGet_isSome_of_mem {c : Char} (h : c ∈ symbols) :
    (vocabGet c).isSome = true := by
  rw [vocabGet, Option.isSome_map']
  rw [List.getLast?_isSome]
  obtain ⟨n, hn⟩ := List.get?_of_mem h
  refine List.ne_nil_of_mem (a := (n, c)) (List.mem_filter.mpr ⟨?_, by simp⟩)
  exact List.mem_enum_iff_get?.mpr hn

/-- The reverse table inverts the final vocabulary map: if `VOCABULARY`
maps `c` to `i` then `REVERSE_VOCABULARY` maps `i` back to `c`. -/
lemma reverseGet_vocabGet {c : Char} {i : Nat} (h : vocabGet c = some i) :
    reverseGet i = some c := by
  have hc_mem : c ∈ symbols := List.get?_mem (vocabGet_get? h)
  have hsome : (symbols.find? (fun c' => vocabGet c' == some i)).isSome = true :=
    List.find?_isSome.mpr ⟨c, hc_mem, by simp [h]⟩
  obtain ⟨c', hc'⟩ := Option.isSome_iff_exists.mp hsome
  have hpc' : vocabGet c' = some i := by simpa using List.find?_some hc'
  have hcc : c' = c :=
    Option.some.inj ((vocabGet_get? hpc').symm.trans (vocabGet_get? h))
  rw [reverseGet, hc', hcc]

/-- Unfolding `tokenize` one character at a time. -/
lemma tokenize_cons (c : Char) (rest : List Char) :
    tokenize (c :: rest) =
      match vocabGet c with
      | none => tokenize rest
      | some id => (id : Int) :: tokenize rest := by
  rw [tokenize, List.filterMap_cons]
  cases vocabGet c <;> rfl

/-- The `usize` cast is the identity on vocabulary indices. -/
lemma i64AsUsize_vocab {i : Nat} (h : i < 178) : i64AsUsize (i : Int) = i := by
  rw [i64AsUsize, Int.emod_eq_of_lt (by positivity) (by exact_mod_cast by omega : (i : Int) < 2 ^ 64),
    Int.toNat_natCast]

/-- Round trip: de-tokenizing the token sequence of `s` yields exactly the
in-vocabulary characters of `s`, in order. -/
lemma tokens_to_phonemes_tokenize (s : List Char) :
    tokens_to_phonemes (tokenize s) = s.filter (fun c => (vocabGet c).isSome) := by
  induction s with
  | nil => rfl
  | cons c rest ih =>
    rw [tokenize_cons, List.filter_cons]
    cases hv : vocabGet c with
    | none => simpa [hv] using ih
    | some i =>
      have hrev : reverseGet (i64AsUsize (i : Int)) = some c := by
        rw [i64AsUsize_vocab (vocabGet_lt hv)]
        exact reverseGet_vocabGet hv
      simp only [hv, Option.isSome_some, if_pos]
      rw [tokens_to_phonemes, List.filterMap_cons, hrev]
      rw [tokens_to_phonemes] at ih
      rw [ih]

/-- Tokenizing keeps exactly the in-vocabulary characters. -/
lemma tokenize_length (s : List Char) :
    (tokenize s).length = (s.filter (fun c => (vocabGet c).isSome)).length := by
  induction s with
  | nil => rfl
  | cons c rest ih =>
    rw [tokenize_cons, List.filter_cons]
    cases hv : vocabGet c with
    | none => simpa [hv] using ih
    | some i => simp only [hv, Option.isSome_some, if_pos, List.length_cons, ih]

/-- **C7.** For a string made only of vocabulary characters,
`tokens_to_phonemes (tokenize s) = s`; in general the round trip equals `s`
with exactly the out-of-vocabulary characters removed, in original
order. -/
theorem tokenize_round_trip :
    (∀ s : List Char, (∀ c ∈ s, (vocabGet c).isSome = true) →
      tokens_to_phonemes (tokenize s) = s)
  ∧ (∀ s : List Char,
      tokens_to_phonemes (tokenize s) = s.filter (fun c => (vocabGet c).isSome)) := by
  refine ⟨?_, tokens_to_phonemes_tokenize⟩
  intro s h
  rw [tokens_to_phonemes_tokenize, List.filter_eq_self.mpr h]

/-- Witness for C7: the in-vocabulary string `"ab"` round-trips. -/
theorem tokenize_round_trip_witness :
    tokens_to_phonemes (tokenize ['a', 'b']) = ['a', 'b'] :=
  tokenize_round_trip.1 ['a', 'b'] (by decide)

/-- Every token of `tokenize s` is the index assigned to some character. -/
lemma tokenize_mem {t : Int} {s : List Char} (h : t ∈ tokenize s) :
    ∃ (c : Char) (i : Nat), t = (i : Int) ∧ vocabGet c = some i := by
  induction s with
  | nil => simp [tokenize] at h
  | cons c rest ih =>
    rw [tokenize_cons] at h
    cases hv : vocabGet c with
    | none => rw [hv] at h; exact ih h
    | some i =>
      rw [hv] at h
      rcases List.mem_cons.mp h with h | h
      · exact ⟨c, i, h, hv⟩
      · exact ih h

/-- **C10 (amended).** Every token produced by `tokenize` has an entry in
the reverse vocabulary, so `tokens_to_phonemes` is total on `tokenize`'s
output and drops no token: the character count equals the token count.
(The stricter bound `token < number of distinct vocabulary symbols` of the
original claim fails — see the counterexample — because the duplicated
apostrophe makes the table one entry shorter than the index range.) -/
theorem tokens_to_phonemes_total_on_tokenize :
    ∀ s : List Char,
      (∀ t ∈ tokenize s, (reverseGet (i64AsUsize t)).isSome = true)
      ∧ (tokens_to_phonemes (tokenize s)).length = (tokenize s).length := by
  intro s
  constructor
  · intro t ht
    obtain ⟨c, i, rfl, hv⟩ := tokenize_mem ht
    rw [i64AsUsize_vocab (vocabGet_lt hv), reverseGet_vocabGet hv]
    rfl
  · rw [tokens_to_phonemes_tokenize, tokenize_length]

/-- Witness for the amended C10: token 43 (`'a'`) has a reverse entry, and
nothing is dropped when de-tokenizing `tokenize "a"`. -/
theorem tokens_to_phonemes_total_on_tokenize_witness :
    (reverseGet (i64AsUsize 43)).isSome = true
  ∧ (tokens_to_phonemes (tokenize ['a'])).length = (tokenize ['a']).length :=
  ⟨(tokens_to_phonemes_total_on_tokenize ['a']).1 43 (by decide),
   (tokens_to_phonemes_total_on_tokenize ['a']).2⟩

/-- **C10 counterexample.** `tokenize "ᵻ" = [177]`, but the vocabulary has
only 177 distinct symbols (the apostrophe appears twice in the
concatenation), so the claimed strict bound
`token < number of distinct vocabulary symbols` fails at `'ᵻ'`. -/
theorem tokenize_index_bound_counterexample :
    tokenize ['ᵻ'] = [177] ∧ vocabularyLen = 177
      ∧ ¬ (∀ t ∈ tokenize ['ᵻ'], t < (vocabularyLen : Int)) := by
  refine ⟨by decide, by decide, fun h => ?_⟩
  have h177 := h 177 (by decide)
  rw [show vocabularyLen = 177 by decide] at h177
  omega

/-! ## Claim C3 -/

/-- Characters none of the six normalization passes can touch: not
whitespace, not a typographic quote, not `'.'` (so no abbreviation can
match), not a Unicode decimal digit (so neither numeric rewrite can
match). -/
def untouchedChar (c : Char) : Bool :=
  !isWs c && c.toNat ≠ 0x2018 && c.toNat ≠ 0x2019 && c.toNat ≠ 0x201C
    && c.toNat ≠ 0x201D && c ≠ '.' && !isRegexDigit c

/- Non-ASCII decimal digits are not in the untouched class (the numeric
rewrites can act on them, as the example above shows). -/
example : untouchedChar '١' = false := by decide
example : untouchedChar 'h' = true := by decide

lemma collapseWsAux_id : ∀ (fuel : Nat) (l : List Char),
    (∀ c ∈ l, isWs c = false) → collapseWsAux fuel l = l
  | 0, _, _ => rfl
  | _ + 1, [], _ => rfl
  | fuel + 1, c :: rest, h => by
    rw [collapseWsAux, if_neg (by simp [h c (List.mem_cons_self c rest)]),
      collapseWsAux_id fuel rest (fun x hx => h x (List.mem_cons_of_mem c hx))]

lemma collapseWs_id (l : List Char) (h : ∀ c ∈ l, isWs c = false) :
    collapseWs l = l :=
  collapseWsAux_id l.length l h

lemma foldQuote_eq_self {c : Char} (h : untouchedChar c = true) : foldQuote c = c := by
  simp only [untouchedChar, Bool.and_eq_true, Bool.not_eq_true', decide_eq_true_eq,
    ne_eq] at h
  obtain ⟨⟨⟨⟨⟨⟨_, h1⟩, h2⟩, h3⟩, h4⟩, _⟩, _⟩ := h
  rw [foldQuote, if_neg, if_neg]
  · rintro (rfl | rfl)
    · exact h3 (by decide)
    · exact h4 (by decide)
  · rintro (rfl | rfl)
    · exact h1 (by decide)
    · exact h2 (by decide)

lemma stripPat_mem : ∀ (pat l r : List Char), stripPat pat l = some r →
    ∀ x ∈ pat, x ∈ l
  | [], _, _, _, x, hx => absurd hx (List.not_mem_nil x)
  | _ :: _, [], _, h, _, _ => by simp [stripPat] at h
  | p :: ps, c :: cs, r, h, x, hx => by
    rw [stripPat] at h
    split_ifs at h with hcp
    rcases List.mem_cons.mp hx with rfl | hx
    · rw [← hcp]; exact List.mem_cons_self c cs
    · exact List.mem_cons_of_mem c (stripPat_mem ps cs r h x hx)

lemma replaceAbbrevAux_id (pat rep : List Char) (hdot : '.' ∈ pat) :
    ∀ (fuel : Nat) (prev : Option Char) (l : List Char), '.' ∉ l →
      replaceAbbrevAux pat rep fuel prev l = l
  | 0, _, _, _ => rfl
  | _ + 1, _, [], _ => rfl
  | fuel + 1, prev, c :: rest, h => by
    have hrest : '.' ∉ rest := fun hr => h (List.mem_cons_of_mem c hr)
    have hstrip : stripPat pat (c :: rest) = none := by
      cases hs : stripPat pat (c :: rest) with
      | none => rfl
      | some r => exact absurd (stripPat_mem pat (c :: rest) r hs '.' hdot) h
    rw [replaceAbbrevAux]
    split_ifs with hb
    · rw [hstrip, replaceAbbrevAux_id pat rep hdot fuel (some c) rest hrest]
    · rw [replaceAbbrevAux_id pat rep hdot fuel (some c) rest hrest]

lemma replaceAbbrev_id (pat rep l : List Char) (hdot : '.' ∈ pat)
    (h : '.' ∉ l) : replaceAbbrev pat rep l = l :=
  replaceAbbrevAux_id pat rep hdot l.length none l h

lemma abbrev_fold_id (l : List Char) (h : '.' ∉ l) :
    abbrevExpansions.foldl (fun acc pr => replaceAbbrev pr.1 pr.2 acc) l = l := by
  simp only [abbrevExpansions, List.foldl_cons, List.foldl_nil]
  rw [replaceAbbrev_id _ _ _ (by decide) h, replaceAbbrev_id _ _ _ (by decide) h,
    replaceAbbrev_id _ _ _ (by decide) h, replaceAbbrev_id _ _ _ (by decide) h,
    replaceAbbrev_id _ _ _ (by decide) h, replaceAbbrev_id _ _ _ (by decide) h,
    replaceAbbrev_id _ _ _ (by decide) h, replaceAbbrev_id _ _ _ (by decide) h,
    replaceAbbrev_id _ _ _ (by decide) h]

lemma rangeAux_id : ∀ (fuel : Nat) (l : List Char),
    (∀ c ∈ l, isRegexDigit c = false) → rangeAux fuel l = l
  | 0, _, _ => rfl
  | _ + 1, [], _ => rfl
  | fuel + 1, c :: rest, h => by
    rw [rangeAux, if_neg (by simp [h c (List.mem_cons_self c rest)]),
      rangeAux_id fuel rest (fun x hx => h x (List.mem_cons_of_mem c hx))]

lemma rangeRewrite_id (l : List Char) (h : ∀ c ∈ l, isRegexDigit c = false) :
    rangeRewrite l = l :=
  rangeAux_id l.length l h

lemma commaMatch_none {c : Char} (rest : List Char) (hd : isRegexDigit c = false) :
    commaMatch c rest = none := by
  unfold commaMatch
  rw [if_neg (by simp [hd])]

lemma commaAux_id : ∀ (fuel : Nat) (l : List Char),
    (∀ c ∈ l, isRegexDigit c = false) → commaAux fuel l = l
  | 0, _, _ => rfl
  | _ + 1, [], _ => rfl
  | fuel + 1, c :: rest, h => by
    rw [commaAux, commaMatch_none rest (h c (List.mem_cons_self c rest)),
      commaAux_id fuel rest (fun x hx => h x (List.mem_cons_of_mem c hx))]

lemma commaRewrite_id (l : List Char) (h : ∀ c ∈ l, isRegexDigit c = false) :
    commaRewrite l = l :=
  commaAux_id l.length l h

lemma dropWhile_isWs_id (l : List Char) (h : ∀ c ∈ l, isWs c = false) :
    l.dropWhile isWs = l := by
  cases l with
  | nil => rfl
  | cons c rest =>
    rw [List.dropWhile_cons, if_neg (by simp [h c (List.mem_cons_self c rest)])]

lemma trimWs_id (l : List Char) (h : ∀ c ∈ l, isWs c = false) : trimWs l = l := by
  rw [trimWs, dropWhile_isWs_id l h,
    dropWhile_isWs_id l.reverse (fun c hc => h c (List.mem_reverse.mp hc)),
    List.reverse_reverse]

/-- A string of untouched characters is a fixed point of `normalize_text`. -/
lemma normalize_text_fixed (s : String)
    (h : ∀ c ∈ s.data, untouchedChar c = true) : normalize_text s = s := by
  have hflags : ∀ c ∈ s.data, isWs c = false ∧ c ≠ '.' ∧ isRegexDigit c = false := by
    intro c hc
    have := h c hc
    simp only [untouchedChar, Bool.and_eq_true, Bool.not_eq_true',
      decide_eq_true_eq, ne_eq] at this
    exact ⟨this.1.1.1.1.1.1, this.1.2, this.2⟩
  have hdot : '.' ∉ s.data := fun hc => (hflags '.' hc).2.1 rfl
  rw [normalize_text]
  split_ifs with he
  · exact ((String.isEmpty_iff _).mp he).symm
  · have hlist : normalizeList s.data = s.data := by
      simp only [normalizeList]
      rw [collapseWs_id s.data (fun c hc => (hflags c hc).1),
        List.map_congr_left (fun c hc => foldQuote_eq_self (h c hc)), List.map_id',
        abbrev_fold_id s.data hdot,
        rangeRewrite_id s.data (fun c hc => (hflags c hc).2.2),
        commaRewrite_id s.data (fun c hc => (hflags c hc).2.2),
        trimWs_id s.data (fun c hc => (hflags c hc).1)]
    rw [hlist]

/-- **C3 counterexample.** `normalize_text` is not idempotent: regex
`replace_all` resumes after each numeric-range match, so the chained range
`"1-2-3"` normalizes to `"1 to 2-3"`, and a second pass rewrites the
remaining `"2-3"` to give `"1 to 2 to 3"`. -/
theorem normalize_text_not_idempotent :
    normalize_text "1-2-3" = "1 to 2-3"
  ∧ normalize_text (normalize_text "1-2-3") = "1 to 2 to 3"
  ∧ normalize_text (normalize_text "1-2-3") ≠ normalize_text "1-2-3" :=
  ⟨by decide, by decide, by decide⟩

/-- **C3 (amended).** `normalize_text` is not idempotent on all strings
(chained numeric separators are rewritten further by a second pass, e.g.
`"1-2-3"`); it is idempotent on texts the passes leave alone — any string
without whitespace, typographic quotes, periods and Unicode decimal
digits is a fixed
point, so a second application changes nothing. -/
theorem normalize_text_idempotent_on_untouched (s : String)
    (h : ∀ c ∈ s.data, untouchedChar c = true) :
    normalize_text (normalize_text s) = normalize_text s := by
  rw [normalize_text_fixed s h, normalize_text_fixed s h]

/-- Witness for the amended C3: `"hello"` is already normal and stays
fixed under a second pass. -/
theorem normalize_text_idempotent_on_untouched_witness :
    normalize_text (normalize_text "hello") = normalize_text "hello" :=
  normalize_text_idempotent_on_untouched "hello" (by decide)

/-! ## Claim C1 -/

/-- Collaborators that always succeed: the phonemizer returns `"h"`, the
session returns the one-sample waveform `[0]`. -/
def stubEnv : TtsEnv :=
  { phonemize := fun _ _ => .ok "h"
    runSession := fun _ _ _ => .ok [0]
    loadVoice := fun _ => .error (.VoiceDataError "no file system") }

/-- A fresh `KokoroTTS` whose store has Bella's embedding preloaded (the
stub uses an empty embedding, exercising the fallback style path). -/
def stubState : KokoroState := KokoroTTS_new [(.AmericanFemale .Bella, [])]

/-- **C1 counterexample.** `process_tts` itself performs no speed
validation: called directly with the out-of-range speed `0.4`, it does not
fail — the full pipeline (phonemization, embedding lookup, inference) runs
and returns the synthesized waveform (`TtsError` has no validation variant
at all). -/
theorem process_tts_accepts_out_of_range_speed :
    (process_tts stubEnv stubState "hi" (.AmericanFemale .Bella) (2 / 5) "0.4" 0).1 =
      .ok [0] := by
  with_unfolding_all rfl

/-- **C1 (amended).** The speed validation lives in the HTTP handler
`synthesize_speech`, not in `process_tts`: for any collaborators and state,
a request whose speed fails `(0.5..=2.0).contains` is rejected with the
400 validation error and the state is returned untouched — `process_tts`
(and hence phonemization) is never invoked; the boundaries 0.5 and 2.0 and
only they among the spec's probe values pass the check, and a valid speed
proceeds into `process_tts`. -/
theorem synthesize_speech_speed_validation :
    (∀ (env : TtsEnv) (st : KokoroState) (req : TtsRequest) (now : Nat)
       (sv : SpeedVal) (v : VoiceType), req.speed = some sv →
       parse_voice req.voice = .ok v → speedValid sv.val = false →
       synthesize_speech env st req now =
         (.error (400, "Speed must be between 0.5 and 2.0"), st))
  ∧ speedValid (1 / 2) = true ∧ speedValid 2 = true
  ∧ speedValid (2 / 5) = false ∧ speedValid (21 / 10) = false
  ∧ (∀ (env : TtsEnv) (st : KokoroState) (req : TtsRequest) (now : Nat)
       (sv : SpeedVal) (v : VoiceType), req.speed = some sv →
       parse_voice req.voice = .ok v → speedValid sv.val = true →
       synthesize_speech env st req now =
         (match process_tts env st req.text v sv.val sv.text now with
          | (.error _, st') => (.error (500, "TTS processing error"), st')
          | (.ok audio, st') => (.ok (audio_to_wav audio), st'))) := by
  refine ⟨?_, by with_unfolding_all rfl, by with_unfolding_all rfl,
    by with_unfolding_all rfl, by with_unfolding_all rfl, ?_⟩
  · intro env st req now sv v hspeed hvoice hvalid
    rw [synthesize_speech, hvoice]
    simp only [hspeed, Option.getD_some, hvalid, Bool.false_eq_true, if_false]
  · intro env st req now sv v hspeed hvoice hvalid
    rw [synthesize_speech, hvoice]
    simp only [hspeed, Option.getD_some, hvalid, if_true]

/-- Witness for the amended C1: a request for Bella at speed `0.4` is
rejected with the validation error and the state is unchanged, for the
concrete stub collaborators. -/
theorem synthesize_speech_speed_validation_witness :
    synthesize_speech stubEnv stubState
        ⟨"hi", "american_female_bella", some ⟨2 / 5, "0.4"⟩⟩ 0 =
      (.error (400, "Speed must be between 0.5 and 2.0"), stubState) :=
  synthesize_speech_speed_validation.1 stubEnv stubState
    ⟨"hi", "american_female_bella", some ⟨2 / 5, "0.4"⟩⟩ 0 ⟨2 / 5, "0.4"⟩
    (.AmericanFemale .Bella) rfl rfl (by with_unfolding_all rfl)

/-! ## Claims C4 and C5 -/

/-- Removing a key removes every binding of it. -/
lemma find?_cacheRemove (cache : List (String × CacheEntry)) (k : String) :
    (cacheRemove cache k).find? (fun p => p.1 == k) = none := by
  rw [List.find?_eq_none]
  intro p hp
  have h2 := (List.mem_filter.mp hp).2
  simp only [ne_eq, decide_eq_true_eq] at h2
  simp [h2]

/-- A `put` into a cache of positive capacity leaves the fresh entry as
the binding of its key. -/
lemma find?_lruPut (cache : List (String × CacheEntry)) (k : String)
    (e : CacheEntry) (cap : Nat) (hcap : 0 < cap) :
    (lruPut cache k e cap).find? (fun p => p.1 == k) = some (k, e) := by
  rw [lruPut]
  obtain ⟨cap', rfl⟩ := Nat.exists_eq_succ_of_ne_zero (Nat.pos_iff_ne_zero.mp hcap)
  rw [List.take_succ_cons, List.find?_cons_of_pos _ (by simp)]

/-- Resolving an embedding never touches the cache (or its settings). -/
lemma get_voice_embedding_cache (env : TtsEnv) (st : KokoroState) (v : VoiceType) :
    (get_voice_embedding env st v).2.cache = st.cache
    ∧ (get_voice_embedding env st v).2.cacheCap = st.cacheCap := by
  rw [get_voice_embedding]
  cases st.voiceEmbeddings.find? (fun p => p.1 == v) with
  | some p => exact ⟨rfl, rfl⟩
  | none =>
    cases env.loadVoice v with
    | ok e => exact ⟨rfl, rfl⟩
    | error e => exact ⟨rfl, rfl⟩

/-- A failing generation phase returns its input cache unchanged. -/
lemma process_tts_generate_error_cache (env : TtsEnv) (st1 : KokoroState)
    (normalized_text cache_key : String) (voiceType : VoiceType) (speed : ℚ)
    (now : Nat) (e : TtsError) (st' : KokoroState)
    (hres : process_tts_generate env st1 normalized_text cache_key voiceType speed now
      = (.error e, st')) : st'.cache = st1.cache := by
  cases hph : env.phonemize normalized_text voiceType.language with
  | error msg =>
    simp only [process_tts_generate, hph, Prod.mk.injEq] at hres
    rw [← hres.2]
  | ok phonemes =>
    cases hemb : get_voice_embedding env st1 voiceType with
    | mk res st2 =>
      have hcc := get_voice_embedding_cache env st1 voiceType
      rw [hemb] at hcc
      cases res with
      | error e2 =>
        simp only [process_tts_generate, hph, hemb, Prod.mk.injEq] at hres
        rw [← hres.2]
        exact hcc.1
      | ok emb =>
        cases hinf : infer env ([(0 : Int)] ++ tokenize phonemes.toList ++ [(0 : Int)])
            emb speed with
        | error e3 =>
          simp only [process_tts_generate, hph, hemb, hinf, Prod.mk.injEq] at hres
          rw [← hres.2]
          exact hcc.1
        | ok audio =>
          simp only [process_tts_generate, hph, hemb, hinf, Prod.mk.injEq] at hres
          exact absurd hres.1 (by simp)

/-- A successful generation phase returns the cache with exactly the fresh
entry inserted (timestamp `now`). -/
lemma process_tts_generate_ok_cache (env : TtsEnv) (st1 : KokoroState)
    (normalized_text cache_key : String) (voiceType : VoiceType) (speed : ℚ)
    (now : Nat) (audio : List ℚ) (st' : KokoroState)
    (hres : process_tts_generate env st1 normalized_text cache_key voiceType speed now
      = (.ok audio, st')) :
    st'.cache = lruPut st1.cache cache_key ⟨audio, now⟩ st1.cacheCap := by
  cases hph : env.phonemize normalized_text voiceType.language with
  | error msg =>
    simp only [process_tts_generate, hph, Prod.mk.injEq] at hres
    exact absurd hres.1 (by simp)
  | ok phonemes =>
    cases hemb : get_voice_embedding env st1 voiceType with
    | mk res st2 =>
      have hcc := get_voice_embedding_cache env st1 voiceType
      rw [hemb] at hcc
      cases res with
      | error e2 =>
        simp only [process_tts_generate, hph, hemb, Prod.mk.injEq] at hres
        exact absurd hres.1 (by simp)
      | ok emb =>
        cases hinf : infer env ([(0 : Int)] ++ tokenize phonemes.toList ++ [(0 : Int)])
            emb speed with
        | error e3 =>
          simp only [process_tts_generate, hph, hemb, hinf, Prod.mk.injEq] at hres
          exact absurd hres.1 (by simp)
        | ok audio2 =>
          simp only [process_tts_generate, hph, hemb, hinf, Prod.mk.injEq,
            Except.ok.injEq] at hres
          simp only at hcc
          rw [← hres.2]
          simp only [hres.1, hcc.1, hcc.2]

lemma cacheRemove_head (k : String) (e : CacheEntry) (c : List (String × CacheEntry)) :
    cacheRemove ((k, e) :: c) k = cacheRemove c k := by
  simp [cacheRemove, List.filter_cons]

lemma cacheRemove_idem (c : List (String × CacheEntry)) (k : String) :
    cacheRemove (cacheRemove c k) k = cacheRemove c k := by
  simp only [cacheRemove, List.filter_filter]
  congr 1
  funext p
  rw [Bool.and_self]

/-- The state after the cache hit promoted an entry to most recent. -/
def promoteEntry (st : KokoroState) (k : String) (e : CacheEntry) : KokoroState :=
  { st with cache := (k, e) :: cacheRemove st.cache k }

/-- The state after an expired entry was popped. -/
def dropEntry (st : KokoroState) (k : String) : KokoroState :=
  { st with cache := cacheRemove st.cache k }

/-- The hit path: a fresh entry is returned (and promoted). -/
lemma process_tts_eq_hit (env : TtsEnv) (st : KokoroState) (text : String)
    (voiceType : VoiceType) (speed : ℚ) (speedStr : String) (now : Nat)
    (pr : String × CacheEntry)
    (hfind : st.cache.find? (fun p =>
      p.1 == generate_cache_key (normalize_text text) voiceType speedStr) = some pr)
    (hfresh : now - pr.2.timestamp < st.cacheTtl) :
    process_tts env st text voiceType speed speedStr now =
      (.ok pr.2.audio,
        promoteEntry st (generate_cache_key (normalize_text text) voiceType speedStr)
          pr.2) := by
  simp only [process_tts, lruGet, hfind, if_pos hfresh, promoteEntry]

/-- The expired path: the entry is removed and the miss path runs. -/
lemma process_tts_eq_expired (env : TtsEnv) (st : KokoroState) (text : String)
    (voiceType : VoiceType) (speed : ℚ) (speedStr : String) (now : Nat)
    (pr : String × CacheEntry)
    (hfind : st.cache.find? (fun p =>
      p.1 == generate_cache_key (normalize_text text) voiceType speedStr) = some pr)
    (hexp : ¬ (now - pr.2.timestamp < st.cacheTtl)) :
    process_tts env st text voiceType speed speedStr now =
      process_tts_generate env
        (dropEntry st (generate_cache_key (normalize_text text) voiceType speedStr))
        (normalize_text text)
        (generate_cache_key (normalize_text text) voiceType speedStr)
        voiceType speed now := by
  simp only [process_tts, lruGet, hfind, if_neg hexp, lruPop, cacheRemove_head,
    cacheRemove_idem, dropEntry]

/-- The plain miss path: no entry, the miss path runs on the same state. -/
lemma process_tts_eq_missing (env : TtsEnv) (st : KokoroState) (text : String)
    (voiceType : VoiceType) (speed : ℚ) (speedStr : String) (now : Nat)
    (hfind : st.cache.find? (fun p =>
      p.1 == generate_cache_key (normalize_text text) voiceType speedStr) = none) :
    process_tts env st text voiceType speed speedStr now =
      process_tts_generate env st (normalize_text text)
        (generate_cache_key (normalize_text text) voiceType speedStr)
        voiceType speed now := by
  simp only [process_tts, lruGet, hfind]

/-- **C4.** A failing synthesis never inserts a cache entry: whenever
`process_tts` returns an error — phonemization, embedding resolution or
inference failed — the final cache holds no entry for the request's key
(the insertion happens only after a fully successful inference; an expired
entry found on lookup has been removed, and nothing replaced it). -/
theorem process_tts_error_no_cache_entry :
    ∀ (env : TtsEnv) (st : KokoroState) (text : String) (voiceType : VoiceType)
      (speed : ℚ) (speedStr : String) (now : Nat) (e : TtsError) (st' : KokoroState),
      process_tts env st text voiceType speed speedStr now = (.error e, st') →
      st'.cache.find? (fun p =>
        p.1 == generate_cache_key (normalize_text text) voiceType speedStr) = none := by
  intro env st text voiceType speed speedStr now e st' hres
  cases hfind : st.cache.find? (fun p =>
      p.1 == generate_cache_key (normalize_text text) voiceType speedStr) with
  | some pr =>
    by_cases hfresh : now - pr.2.timestamp < st.cacheTtl
    · rw [process_tts_eq_hit env st text voiceType speed speedStr now pr hfind hfresh]
        at hres
      simp only [Prod.mk.injEq] at hres
      exact absurd hres.1 (by simp)
    · rw [process_tts_eq_expired env st text voiceType speed speedStr now pr hfind hfresh]
        at hres
      have hc := process_tts_generate_error_cache _ _ _ _ _ _ _ _ _ hres
      rw [hc]
      exact find?_cacheRemove st.cache _
  | none =>
    rw [process_tts_eq_missing env st text voiceType speed speedStr now hfind] at hres
    have hc := process_tts_generate_error_cache _ _ _ _ _ _ _ _ _ hres
    rw [hc]
    exact hfind

/-- Collaborators whose phonemizer always fails. -/
def failEnv : TtsEnv :=
  { phonemize := fun _ _ => .error "espeak failed"
    runSession := fun _ _ _ => .ok [0]
    loadVoice := fun _ => .error (.VoiceDataError "no file system") }

/-- Witness for C4: with a phonemizer that always fails, a request against
the fresh store leaves no cache entry for its key. -/
theorem process_tts_error_no_cache_entry_witness :
    ((process_tts failEnv stubState "hi" (.AmericanFemale .Bella) 1 "1" 0).2).cache.find?
      (fun p =>
        p.1 == generate_cache_key (normalize_text "hi") (.AmericanFemale .Bella) "1")
      = none :=
  process_tts_error_no_cache_entry failEnv stubState "hi" (.AmericanFemale .Bella) 1 "1"
    0 (.PhonemeError "espeak failed")
    (process_tts failEnv stubState "hi" (.AmericanFemale .Bella) 1 "1" 0).2
    (by with_unfolding_all rfl)

/-- **C5.** The TTL is the fixed hour (3600 seconds, set by `new`); a
stored entry is served as a hit exactly while its age is *strictly* below
the TTL (returning the stored waveform); once `now - timestamp` reaches the
TTL the entry is removed and the result regenerated through the full
pipeline, and the entry written back carries the fresh timestamp `now`. -/
theorem cache_entry_ttl_spec :
    CACHE_TTL = 3600
  ∧ (∀ emb, (KokoroTTS_new emb).cacheTtl = CACHE_TTL)
  ∧ (∀ (env : TtsEnv) (st : KokoroState) (text : String) (voiceType : VoiceType)
       (speed : ℚ) (speedStr : String) (now : Nat) (pr : String × CacheEntry),
       st.cache.find? (fun p =>
         p.1 == generate_cache_key (normalize_text text) voiceType speedStr) = some pr →
       now - pr.2.timestamp < st.cacheTtl →
       (process_tts env st text voiceType speed speedStr now).1 = .ok pr.2.audio)
  ∧ (∀ (env : TtsEnv) (st : KokoroState) (text : String) (voiceType : VoiceType)
       (speed : ℚ) (speedStr : String) (now : Nat) (pr : String × CacheEntry)
       (phonemes : String) (pe : VoiceType × List ℚ) (audio : List ℚ),
       st.cache.find? (fun p =>
         p.1 == generate_cache_key (normalize_text text) voiceType speedStr) = some pr →
       st.cacheTtl ≤ now - pr.2.timestamp →
       0 < st.cacheCap →
       env.phonemize (normalize_text text) voiceType.language = .ok phonemes →
       st.voiceEmbeddings.find? (fun p => p.1 == voiceType) = some pe →
       env.runSession ([(0 : Int)] ++ tokenize phonemes.toList ++ [(0 : Int)])
         (styleData pe.2) speed = .ok audio →
       ∃ st', process_tts env st text voiceType speed speedStr now = (.ok audio, st')
         ∧ st'.cache.find? (fun p =>
             p.1 == generate_cache_key (normalize_text text) voiceType speedStr) =
           some (generate_cache_key (normalize_text text) voiceType speedStr,
             ⟨audio, now⟩)) := by
  refine ⟨rfl, fun _ => rfl, ?_, ?_⟩
  · intro env st text voiceType speed speedStr now pr hfind hfresh
    rw [process_tts_eq_hit env st text voiceType speed speedStr now pr hfind hfresh]
  · intro env st text voiceType speed speedStr now pr phonemes pe audio hfind hexp hcap
      hph hemb hrun
    rw [process_tts_eq_expired env st text voiceType speed speedStr now pr hfind
      (by omega)]
    have hemb1 : get_voice_embedding env
        (dropEntry st (generate_cache_key (normalize_text text) voiceType speedStr))
        voiceType =
        (.ok pe.2,
          dropEntry st (generate_cache_key (normalize_text text) voiceType speedStr)) := by
      simp only [get_voice_embedding, dropEntry, hemb]
    set key := generate_cache_key (normalize_text text) voiceType speedStr with hkey
    refine ⟨{ st with cache := lruPut (cacheRemove st.cache key) key ⟨audio, now⟩ st.cacheCap }, ?_, ?_⟩
    · simp only [process_tts_generate, hph, hemb1, infer, hrun]
      rfl
    · simp only [find?_lruPut _ _ _ _ hcap]

/-- Witness for C5: a state holding one entry stamped at time 0 — queried
at time 10 it is a hit returning the stored waveform `[5]`; queried at time
3600 (the TTL) it is regenerated through the stub pipeline, yielding the
stub waveform `[0]` stored with the fresh timestamp 3600. -/
theorem cache_entry_ttl_spec_witness :
    ((process_tts stubEnv
        { voiceEmbeddings := [(.AmericanFemale .Bella, [])],
          cache := [(generate_cache_key (normalize_text "hi") (.AmericanFemale .Bella) "1",
            ⟨[5], 0⟩)],
          cacheTtl := CACHE_TTL, cacheCap := 50 }
        "hi" (.AmericanFemale .Bella) 1 "1" 10).1 = .ok [5])
  ∧ ∃ st', process_tts stubEnv
        { voiceEmbeddings := [(.AmericanFemale .Bella, [])],
          cache := [(generate_cache_key (normalize_text "hi") (.AmericanFemale .Bella) "1",
            ⟨[5], 0⟩)],
          cacheTtl := CACHE_TTL, cacheCap := 50 }
        "hi" (.AmericanFemale .Bella) 1 "1" 3600 = (.ok [0], st')
      ∧ st'.cache.find? (fun p =>
          p.1 == generate_cache_key (normalize_text "hi") (.AmericanFemale .Bella) "1") =
        some (generate_cache_key (normalize_text "hi") (.AmericanFemale .Bella) "1",
          ⟨[0], 3600⟩) :=
  ⟨cache_entry_ttl_spec.2.2.1 stubEnv _ "hi" (.AmericanFemale .Bella) 1 "1" 10
      _ (by with_unfolding_all rfl) (by decide),
   cache_entry_ttl_spec.2.2.2 stubEnv _ "hi" (.AmericanFemale .Bella) 1 "1" 3600
      _ "h" (.AmericanFemale .Bella, []) [0] (by with_unfolding_all rfl) (by decide)
      (by decide) rfl (by with_unfolding_all rfl) rfl⟩

end IpaNavigator
